import Mathlib

/-!
Verification of the eWeLink device-communication layer (cloud transport,
dispatcher, sequence generator, registry/router, energy-history decoding).
Each Python function of the repository is shallowly embedded as an
executable Lean definition; theorems settle the specification claims.
-/

set_option autoImplicit false
set_option linter.unusedVariables false

namespace Sonoff

/-! ### Python `str` on natural numbers (used by `XRegistryBase.sequence`) -/

/-- Decimal digit value of a character produced by `Nat.digitChar`. -/
def charDigitVal (c : Char) : ℕ := c.toNat - 48

/-- Embedding of Python `str(n)` for a non-negative integer: its decimal
digit string. -/
def pyStr (n : ℕ) : List Char :=
  if n = 0 then ['0'] else ((Nat.digits 10 n).map Nat.digitChar).reverse

/-- Left inverse of `pyStr`. -/
def pyStrInv (l : List Char) : ℕ :=
  Nat.ofDigits 10 ((l.map charDigitVal).reverse)

theorem charDigitVal_digitChar {d : ℕ} (hd : d < 10) :
    charDigitVal (Nat.digitChar d) = d := by
  interval_cases d <;> decide

theorem pyStrInv_pyStr (n : ℕ) : pyStrInv (pyStr n) = n := by
  rcases eq_or_ne n 0 with rfl | hn
  · decide
  · unfold pyStr pyStrInv
    rw [if_neg hn, List.map_reverse, List.reverse_reverse, List.map_map]
    have hmap : (Nat.digits 10 n).map (charDigitVal ∘ Nat.digitChar)
        = Nat.digits 10 n := by
      conv_rhs => rw [← List.map_id (Nat.digits 10 n)]
      apply List.map_congr_left
      intro d hd
      exact charDigitVal_digitChar (Nat.digits_lt_base (by norm_num) hd)
    rw [hmap, Nat.ofDigits_digits]

theorem pyStr_injective : Function.Injective pyStr := by
  intro a b h
  have := congrArg pyStrInv h
  rwa [pyStrInv_pyStr, pyStrInv_pyStr] at this

/-! ### `XRegistryBase.sequence` (base.py lines 105-113)

```python
async def sequence(self) -> str:
    t = time.time_ns() // 1_000_000
    async with self._sequence_lock:
        if t > self._sequence:
            self._sequence = t
        else:
            self._sequence += 1
        return str(self._sequence)
```

The mutex serialises concurrent callers, so a run of calls is a sequence of
steps, each reading its own wall-clock millisecond value `t`. -/

/-- One `sequence()` call: `t` is `time.time_ns() // 1_000_000` read by the
call, `last` the stored `self._sequence`; the result is the new stored value
(whose decimal string is returned). -/
def sequenceStep (last t : ℕ) : ℕ :=
  if t > last then t else last + 1

/-- A run of `sequence()` calls under the mutex: `ts` are the clock values
read by the successive calls (arbitrary, so clock non-monotonicity and
repeated milliseconds are covered); the list of returned counter values. -/
def sequenceRun (last : ℕ) : List ℕ → List ℕ
  | [] => []
  | t :: ts => sequenceStep last t :: sequenceRun (sequenceStep last t) ts

theorem lt_sequenceStep (last t : ℕ) : last < sequenceStep last t := by
  unfold sequenceStep
  split <;> omega

theorem sequenceRun_chain (last : ℕ) (ts : List ℕ) :
    List.Chain' (· < ·) (last :: sequenceRun last ts) := by
  induction ts generalizing last with
  | nil => simp [sequenceRun]
  | cons t ts ih =>
    exact List.Chain'.cons (lt_sequenceStep last t) (ih (sequenceStep last t))

/-- C4: For every finite sequence of `sequence()` calls on one registry
instance (serialised by the instance's mutex), each call returns the decimal
string of `max(now_ms, lastIssued + 1)`, and the returned values are pairwise
distinct and strictly increasing in call-completion order, regardless of
clock non-monotonicity or repeated milliseconds. -/
theorem sequence_unique_increasing (last : ℕ) (ts : List ℕ) :
    (∀ l t, sequenceStep l t = max t (l + 1)) ∧
    List.Chain' (· < ·) (sequenceRun last ts) ∧
    List.Pairwise (· ≠ ·) ((sequenceRun last ts).map pyStr) := by
  refine ⟨fun l t => by unfold sequenceStep; split <;> omega, ?_, ?_⟩
  · exact (sequenceRun_chain last ts).tail
  · have hp : List.Pairwise (· < ·) (sequenceRun last ts) :=
      List.chain'_iff_pairwise.mp (sequenceRun_chain last ts).tail
    exact List.pairwise_map.mpr <| hp.imp fun hab h =>
      absurd (pyStr_injective h) (Nat.ne_of_lt hab)

/-! ### `XRegistryBase.dispatcher_send` (base.py lines 122-127)

```python
def dispatcher_send(self, signal: str, *args, **kwargs) -> None:
    if not self.dispatcher.get(signal):
        return
    for handler in self.dispatcher[signal]:
        handler(*args, **kwargs)
```

A handler invocation either returns or raises; the `for` loop has no
`try`/`except`, so a raised exception propagates out of `dispatcher_send`
and terminates the loop. `exec h` gives the behaviour of invoking handler
`h` on the sent arguments. -/

/-- Runs the handler list in subscription order; returns the handlers that
were actually invoked and the exception that propagated, if any. -/
def runHandlers {H E : Type} (exec : H → Except E Unit) :
    List H → List H × Option E
  | [] => ([], none)
  | h :: rest =>
    match exec h with
    | .ok _ =>
      let r := runHandlers exec rest
      (h :: r.1, r.2)
    | .error e => ([h], some e)

/-- `dispatcher_send`: `dispatcher` maps a signal name to its subscription
list (`.get` missing ⇒ `[]`, and an empty list is falsy, so the guard and the
empty loop agree). -/
def dispatcher_send {H E : Type} (dispatcher : String → List H)
    (exec : H → Except E Unit) (signal : String) : List H × Option E :=
  if (dispatcher signal).isEmpty then ([], none)
  else runHandlers exec (dispatcher signal)

/-- A two-handler dispatcher table used to test the claim: handler `0`
raises, handler `1` is well-behaved. -/
def twoHandlerTable : String → List ℕ :=
  fun s => if s = "update" then [0, 1] else []

/-- Handler `0` raises (exception modelled as `()`); every other handler
returns normally. -/
def throwingExec : ℕ → Except Unit Unit :=
  fun h => if h = 0 then .error () else .ok ()

/-- C3 counterexample: with two connected callbacks where the first raises,
`dispatcher_send` invokes only the first: callback `1` is connected but never
invoked, so a raising callback does prevent the remaining callbacks from
running (refuting the claim as stated). -/
theorem dispatcher_send_throw_stops_counterexample :
    (twoHandlerTable "update").length = 2 ∧
    1 ∈ twoHandlerTable "update" ∧
    dispatcher_send twoHandlerTable throwingExec "update" = ([0], some ()) ∧
    1 ∉ (dispatcher_send twoHandlerTable throwingExec "update").1 := by
  refine ⟨rfl, by decide, rfl, by decide⟩

/-- C3 amended: for every signal, `dispatcher_send` invokes the currently
connected callbacks synchronously in subscription order up to and including
the first one that raises: if no callback raises, every connected callback is
invoked, in order, and no exception propagates; if a callback raises, the
exception propagates to the sender (it is not swallowed), the raising
callback is not retried, and the remaining callbacks are not invoked. -/
theorem dispatcher_send_order_and_throw {H E : Type}
    (dispatcher : String → List H) (exec : H → Except E Unit)
    (signal : String) :
    ((∀ h ∈ dispatcher signal, exec h = .ok ()) →
      dispatcher_send dispatcher exec signal = (dispatcher signal, none)) ∧
    (∀ pre h post e, dispatcher signal = pre ++ h :: post →
      (∀ x ∈ pre, exec x = .ok ()) → exec h = .error e →
      dispatcher_send dispatcher exec signal = (pre ++ [h], some e)) := by
  have hrun_ok : ∀ l : List H, (∀ h ∈ l, exec h = .ok ()) →
      runHandlers exec l = (l, none) := by
    intro l hl
    induction l with
    | nil => rfl
    | cons a l ih =>
      have ha := hl a (by simp)
      simp only [runHandlers, ha]
      rw [ih (fun h hh => hl h (by simp [hh]))]
  have hrun_err : ∀ (pre : List H) (h : H) (post : List H) (e : E),
      (∀ x ∈ pre, exec x = .ok ()) → exec h = .error e →
      runHandlers exec (pre ++ h :: post) = (pre ++ [h], some e) := by
    intro pre h post e hpre he
    induction pre with
    | nil => simp [runHandlers, he]
    | cons a pre ih =>
      have ha := hpre a (by simp)
      simp only [List.cons_append, runHandlers, ha, List.append_eq]
      rw [ih (fun x hx => hpre x (by simp [hx]))]
  constructor
  · intro hall
    unfold dispatcher_send
    split
    · rename_i hemp
      rw [List.isEmpty_iff.mp hemp]
    · exact hrun_ok _ hall
  · intro pre h post e hsplit hpre he
    unfold dispatcher_send
    split
    · rename_i hemp
      rw [List.isEmpty_iff.mp hemp] at hsplit
      exact absurd hsplit (by simp)
    · rw [hsplit]
      exact hrun_err pre h post e hpre he

/-- Witness for the amended C3 theorem at concrete inputs. -/
theorem dispatcher_send_order_and_throw_witness :
    dispatcher_send twoHandlerTable
        (fun _ => (Except.ok () : Except Unit Unit)) "update"
        = ([0, 1], none) ∧
    dispatcher_send twoHandlerTable throwingExec "update" = ([0], some ()) := by
  constructor
  · exact (dispatcher_send_order_and_throw twoHandlerTable
      (fun _ => (Except.ok () : Except Unit Unit)) "update").1 (fun h _ => rfl)
  · exact (dispatcher_send_order_and_throw twoHandlerTable
      throwingExec "update").2 [] 0 [1] () rfl (by simp) rfl

/-! ### `XRegistryCloud.set_online` (cloud.py lines 486-493)

```python
def set_online(self, value: Optional[bool]):
    _LOGGER.debug(f"CLOUD change state old={self.online}, new={value}")
    if value == self.online:
        return
    self.online = value
    self.signal(SIGNAL_UPDATE)
```

`run_forever` calls `set_online(True)` on each successful (re)connect,
`set_online(False)` on each fault, `stop` calls `set_online(None)`. The
Router (`XRegistry.__init__`, `__init__.py` lines 34-36) subscribes its
`cloud_connected` handler to `SIGNAL_CONNECTED`. -/

/-- base.py: `SIGNAL_CONNECTED = "connected"`. -/
def SIGNAL_CONNECTED : String := "connected"

/-- base.py: `SIGNAL_UPDATE = "update"`. -/
def SIGNAL_UPDATE : String := "update"

/-- What a `set_online` call does after the debug log. -/
inductive SetOnlineResult
  /-- `value == self.online`: early return, nothing sent, nothing changed. -/
  | unchanged
  /-- `self.online` is mutated to the value, then the attribute `name` is
  looked up on `self` and called with the given signal-name argument. -/
  | callsMethod (name : String) (signal : String)

/-- `set_online`, returning the new `self.online` and the action taken. -/
def set_online (online value : Option Bool) :
    Option Bool × SetOnlineResult :=
  if value = online then (online, .unchanged)
  else (value, .callsMethod "signal" SIGNAL_UPDATE)

/-- Every attribute name defined on `XRegistryCloud` or inherited from
`ResponseWaiter` / `XRegistryBase` (class-level fields, properties and
methods from cloud.py and base.py, plus the instance fields assigned in
`XRegistryBase.__init__`). -/
def xRegistryCloudAttrs : List String :=
  ["auth", "devices", "last_ts", "online", "region", "task", "ws",
   "host", "ws_host", "headers", "token", "country_code",
   "login", "login_token", "get_homes", "get_devices", "send",
   "start", "stop", "set_online", "send_ws", "receive",
   "run_forever", "process_ws_message", "_process_ws_msg",
   "_waiters", "_set_response", "_wait_response",
   "dispatcher", "session", "_sequence", "_sequence_lock",
   "sequence", "dispatcher_connect", "dispatcher_send", "dispatcher_wait"]

/-- C1 (code bug): at the failing input (first successful connect:
`online = None`, `set_online(True)`), the code mutates `self.online` and then
attempts `self.signal(SIGNAL_UPDATE)` — but no attribute `signal` is defined
anywhere on the class hierarchy (so the call raises `AttributeError`), and
the signal name mentioned is `"update"`, not the `"connected"` signal that
the Router's `cloud_connected` handler is subscribed to; hence no change of
the online state is ever broadcast as the `connected` signal. The
equal-value half of the claim does hold: `set_online` with the current value
sends nothing and changes nothing. -/
theorem set_online_never_fires_connected :
    set_online none (some true)
        = (some true, .callsMethod "signal" SIGNAL_UPDATE) ∧
    "signal" ∉ xRegistryCloudAttrs ∧
    SIGNAL_UPDATE ≠ SIGNAL_CONNECTED ∧
    (∀ v, set_online v v = (v, .unchanged)) ∧
    (∀ old v res, set_online old v = (old, .callsMethod "signal" res) →
      res ≠ SIGNAL_CONNECTED) := by
  refine ⟨rfl, by decide, by decide, fun v => by simp [set_online], ?_⟩
  intro old v res h
  unfold set_online at h
  split at h
  · exact absurd (congrArg Prod.snd h) (by simp)
  · have hres : SIGNAL_UPDATE = res := by
      have := congrArg Prod.snd h
      simp only [SetOnlineResult.callsMethod.injEq] at this
      exact this.2
    rw [← hres]
    decide

/-! ### `ResponseWaiter` (cloud.py lines 250-280)

```python
class ResponseWaiter:
    _waiters: Dict[str, asyncio.Future] = {}

    def _set_response(self, sequence: str, error: int) -> bool:
        if sequence not in self._waiters:
            return False
        try:
            result = DATA_ERROR[error] if error in DATA_ERROR else f"E#{error}"
            self._waiters[sequence].set_result(result)
            return True
        except Exception:
            return False

    async def _wait_response(self, sequence: str, timeout: float):
        self._waiters[sequence] = fut = asyncio.get_event_loop().create_future()
        try:
            await asyncio.wait_for(fut, timeout)
        except asyncio.TimeoutError:
            return "timeout"
        finally:
            _ = self._waiters.pop(sequence, None)
        return fut.result()
```

A future is `pending` or `resolved`; `set_result` on an already-resolved
future raises `InvalidStateError`, which `_set_response` catches, returning
`False` and changing nothing. The waiters dict is modelled as an association
list with unique keys (Python dict). A `_wait_response` run is determined by
the list of `_set_response(sequence, error)` calls that happen before the
timeout elapses (`evs`): the future resolves at the first matching one, else
`asyncio.wait_for` raises `TimeoutError`; either way the `finally` block pops
the map entry. -/

/-- State of an `asyncio.Future`. -/
inductive FutState
  | pending
  | resolved (result : String)
deriving DecidableEq

/-- The `_waiters` dict: sequence id → future state. -/
abbrev Waiters := List (String × FutState)

/-- Dict lookup. -/
def lookupW (w : Waiters) (s : String) : Option FutState :=
  (w.find? (fun p => p.1 == s)).map (·.2)

/-- Dict update of an existing key (replaces the first entry in place). -/
def setW : Waiters → String → FutState → Waiters
  | [], _, _ => []
  | (k, v) :: rest, s, st =>
    if k = s then (k, st) :: rest else (k, v) :: setW rest s st

/-- `dict.pop(s, None)`: removes the entry, if present. -/
def popW : Waiters → String → Waiters
  | [], _ => []
  | (k, v) :: rest, s => if k = s then rest else (k, v) :: popW rest s

/-- cloud.py line 241:
`DATA_ERROR = {0: "online", 503: "offline", 504: "timeout", None: "unknown"}`
and the `f"E#{error}"` fallback in `_set_response`. -/
def dataError : Option Int → String
  | none => "unknown"
  | some k =>
    if k = 0 then "online"
    else if k = 503 then "offline"
    else if k = 504 then "timeout"
    else "E#" ++ toString k

/-- `ResponseWaiter._set_response`. -/
def set_response (w : Waiters) (sequence : String) (error : Option Int) :
    Waiters × Bool :=
  match lookupW w sequence with
  | none => (w, false)
  | some (.resolved _) => (w, false)
  | some .pending => (setW w sequence (.resolved (dataError error)), true)

/-- The `_set_response` calls `evs` applied in arrival order. -/
def process_replies (w : Waiters) (evs : List (String × Option Int)) :
    Waiters :=
  evs.foldl (fun w e => (set_response w e.1 e.2).1) w

/-- `ResponseWaiter._wait_response` with `timeout > 0`: registers a fresh
pending future, lets the replies arriving before the timeout act on the
waiters map, then returns the future's result (or `"timeout"` when it never
resolved), popping the map entry in the `finally` block on both paths. -/
def wait_response (w : Waiters) (sequence : String)
    (evs : List (String × Option Int)) : Waiters × String :=
  let w2 := process_replies ((sequence, .pending) :: w) evs
  match lookupW w2 sequence with
  | some (.resolved r) => (popW w2 sequence, r)
  | _ => (popW w2 sequence, "timeout")

/-- The state of one tracked future after a list of replies acted on it. -/
def futStateAfter (fs : FutState) (seq : String)
    (evs : List (String × Option Int)) : FutState :=
  evs.foldl
    (fun fs e =>
      if e.1 = seq then
        match fs with
        | .pending => .resolved (dataError e.2)
        | r => r
      else fs)
    fs

theorem keys_setW (w : Waiters) (s : String) (st : FutState) :
    (setW w s st).map (·.1) = w.map (·.1) := by
  induction w with
  | nil => rfl
  | cons kv rest ih =>
    obtain ⟨k, v⟩ := kv
    unfold setW
    split <;> simp [ih]

theorem keys_set_response (w : Waiters) (k : String) (e : Option Int) :
    ((set_response w k e).1).map (·.1) = w.map (·.1) := by
  unfold set_response
  split <;> simp [keys_setW]

theorem process_replies_step (w : Waiters) (e : String × Option Int)
    (evs : List (String × Option Int)) :
    process_replies w (e :: evs)
      = process_replies (set_response w e.1 e.2).1 evs := rfl

theorem futStateAfter_step (fs : FutState) (seq : String)
    (e : String × Option Int) (evs : List (String × Option Int)) :
    futStateAfter fs seq (e :: evs)
      = futStateAfter
          (if e.1 = seq then
            match fs with
            | .pending => .resolved (dataError e.2)
            | r => r
          else fs) seq evs := rfl

theorem keys_process_replies (evs : List (String × Option Int))
    (w : Waiters) :
    (process_replies w evs).map (·.1) = w.map (·.1) := by
  induction evs generalizing w with
  | nil => rfl
  | cons e evs ih =>
    rw [process_replies_step, ih, keys_set_response]

theorem futStateAfter_resolved (r : String) (seq : String)
    (evs : List (String × Option Int)) :
    futStateAfter (.resolved r) seq evs = .resolved r := by
  induction evs with
  | nil => rfl
  | cons e evs ih =>
    rw [futStateAfter_step]
    split <;> exact ih

/-- Processing replies leaves the head future at `futStateAfter` and steps
the tail only with the replies for other keys. -/
theorem process_replies_cons (evs : List (String × Option Int))
    (seq : String) (fs : FutState) (w : Waiters) :
    process_replies ((seq, fs) :: w) evs
      = (seq, futStateAfter fs seq evs)
        :: process_replies w (evs.filter (fun e => ! (e.1 == seq))) := by
  induction evs generalizing fs w with
  | nil => rfl
  | cons e evs ih =>
    rw [process_replies_step, futStateAfter_step, List.filter_cons]
    by_cases hk : e.1 = seq
    · have hstep : (set_response ((seq, fs) :: w) e.1 e.2).1
          = (seq, match fs with
                  | .pending => .resolved (dataError e.2)
                  | r => r) :: w := by
        unfold set_response lookupW
        simp only [List.find?_cons, hk]
        cases fs <;> simp [setW]
      rw [hstep, if_pos hk]
      simp only [hk, beq_self_eq_true, Bool.not_true, Bool.false_eq_true,
        if_false]
      exact ih _ w
    · have hstep : (set_response ((seq, fs) :: w) e.1 e.2).1
          = (seq, fs) :: (set_response w e.1 e.2).1 := by
        unfold set_response lookupW
        simp only [List.find?_cons]
        have hne : (seq == e.1) = false := by
          simp [Ne.symm hk]
        rw [hne]
        rcases hfind : w.find? (fun p => p.1 == e.1) with _ | p
        · rw [hfind]
          simp
        · rcases p with ⟨k', fs'⟩
          rw [hfind]
          cases fs' <;> simp [setW, Ne.symm hk]
      rw [hstep, if_neg hk]
      have hne : (e.1 == seq) = false := by simp [hk]
      simp only [hne, Bool.not_false, if_true]
      rw [ih fs (set_response w e.1 e.2).1, process_replies_step]

theorem futStateAfter_find (seq : String)
    (evs : List (String × Option Int)) :
    futStateAfter .pending seq evs
      = match evs.find? (fun e => e.1 == seq) with
        | some e => .resolved (dataError e.2)
        | none => .pending := by
  induction evs with
  | nil => rfl
  | cons e evs ih =>
    rw [futStateAfter_step, List.find?_cons]
    by_cases hk : e.1 = seq
    · have hbeq : (e.1 == seq) = true := by simp [hk]
      rw [if_pos hk, hbeq]
      exact futStateAfter_resolved _ seq evs
    · have hbeq : (e.1 == seq) = false := by simp [hk]
      rw [if_neg hk, hbeq]
      exact ih

theorem lookupW_eq_none (w : Waiters) (s : String) :
    lookupW w s = none ↔ ∀ p ∈ w, p.1 ≠ s := by
  simp [lookupW, List.find?_eq_none]

/-- Every status `_set_response` can store. -/
theorem dataError_cases (e : Option Int) :
    dataError e = "online" ∨ dataError e = "offline" ∨
    dataError e = "timeout" ∨ dataError e = "unknown" ∨
    ∃ c : Int, dataError e = "E#" ++ toString c := by
  rcases e with _ | k
  · simp [dataError]
  · unfold dataError
    by_cases h0 : k = 0
    · simp [h0]
    · by_cases h503 : k = 503
      · simp [h0, h503]
      · by_cases h504 : k = 504
        · simp [h0, h503, h504]
        · refine Or.inr (Or.inr (Or.inr (Or.inr ⟨k, ?_⟩)))
          simp [h0, h503, h504]

/-- Anatomy of a `_wait_response` run on a fresh sequence id: the waiters
map ends as the processed tail (head entry popped) and the result is the
status of the first matching reply, or `"timeout"` when none arrived. -/
theorem wait_response_eq (w : Waiters) (seq : String)
    (evs : List (String × Option Int)) :
    wait_response w seq evs
      = (popW ((seq, futStateAfter .pending seq evs)
            :: process_replies w (evs.filter (fun e => ! (e.1 == seq)))) seq,
         match evs.find? (fun e => e.1 == seq) with
         | some e => dataError e.2
         | none => "timeout") := by
  unfold wait_response
  rw [process_replies_cons, futStateAfter_find]
  rcases hfind : evs.find? (fun e => e.1 == seq) with _ | e
  · rw [hfind]
    dsimp only
    have hlook : lookupW ((seq, FutState.pending)
        :: process_replies w (evs.filter (fun e => ! (e.1 == seq)))) seq
        = some .pending := by
      simp [lookupW, List.find?_cons]
    rw [hlook]
  · rw [hfind]
    dsimp only
    have hlook : lookupW ((seq, FutState.resolved (dataError e.2))
        :: process_replies w (evs.filter (fun e => ! (e.1 == seq)))) seq
        = some (.resolved (dataError e.2)) := by
      simp [lookupW, List.find?_cons]
    rw [hlook]

/-- C5: every Pending Request created by a cloud send with `timeout > 0`
(a `_wait_response` call on a fresh sequence id) is resolved exactly once:
with the status of the first matching-sequence reply, derived from its
`error` code and restricted to
`{online, offline, timeout, unknown, E#<code>}`, or with `"timeout"` when no
matching reply arrives before the timeout; in both cases the waiters-map
entry for the sequence id is removed, and a second resolution attempt for
the same sequence id (a later duplicate reply) has no effect on the returned
result. -/
theorem pending_request_resolved_once (w : Waiters) (seq : String)
    (evs : List (String × Option Int)) (hfresh : lookupW w seq = none) :
    lookupW (wait_response w seq evs).1 seq = none ∧
    ((wait_response w seq evs).2 = "online" ∨
     (wait_response w seq evs).2 = "offline" ∨
     (wait_response w seq evs).2 = "timeout" ∨
     (wait_response w seq evs).2 = "unknown" ∨
     ∃ c : Int, (wait_response w seq evs).2 = "E#" ++ toString c) ∧
    (wait_response w seq evs).2
      = (match evs.find? (fun e => e.1 == seq) with
         | some e => dataError e.2
         | none => "timeout") ∧
    (∀ e', (evs.find? (fun e => e.1 == seq)).isSome →
      (wait_response w seq (evs ++ [(seq, e')])).2
        = (wait_response w seq evs).2) := by
  have hpop : ∀ fs w', popW ((seq, fs) :: w') seq = w' := by
    intro fs w'
    simp [popW]
  refine ⟨?_, ?_, ?_, ?_⟩
  · rw [wait_response_eq, hpop]
    rw [lookupW_eq_none]
    intro p hp
    have hkey : p.1 ∈ (process_replies w
        (evs.filter (fun e => ! (e.1 == seq)))).map (·.1) :=
      List.mem_map_of_mem _ hp
    rw [keys_process_replies] at hkey
    obtain ⟨q, hq, hqe⟩ := List.mem_map.mp hkey
    exact hqe ▸ (lookupW_eq_none w seq).mp hfresh q hq
  · rw [wait_response_eq]
    rcases hfind : evs.find? (fun e => e.1 == seq) with _ | e
    · rw [hfind]
      simp
    · rw [hfind]
      simpa using dataError_cases e.2
  · rw [wait_response_eq]
  · intro e' hsome
    rw [wait_response_eq, wait_response_eq]
    rcases hfind : evs.find? (fun e => e.1 == seq) with _ | e
    · rw [hfind] at hsome
      simp at hsome
    · have happ : (evs ++ [(seq, e')]).find? (fun e => e.1 == seq)
          = some e := by
        rw [List.find?_append, hfind]
        rfl
      rw [happ, hfind]

/-- Witness for C5 at a concrete run: a fresh wait for sequence `"100"`,
with replies for `"99"` (other request, error 503), `"100"` (error 0) and a
duplicate `"100"` (error 504) arriving in order: the request resolves to
`"online"` from the first matching reply, the duplicate has no effect, and
the entry is removed. -/
theorem pending_request_resolved_once_witness :
    lookupW [("99", FutState.pending)] "100" = none ∧
    (wait_response [("99", FutState.pending)] "100"
        [("99", some 503), ("100", some 0), ("100", some 504)]).2
      = "online" ∧
    lookupW (wait_response [("99", FutState.pending)] "100"
        [("99", some 503), ("100", some 0), ("100", some 504)]).1 "100"
      = none := by
  have h := pending_request_resolved_once [("99", FutState.pending)] "100"
    [("99", some 503), ("100", some 0), ("100", some 504)] (by decide)
  exact ⟨by decide, by rw [h.2.2.1]; decide, h.1⟩

/-! ### Cloud WebSocket message handling (cloud.py lines 501-570)

```python
async def run_forever(self, **kwargs):
    while True:
        try:
            self.ws = await self.session.ws_connect(self.ws_host, **kwargs)
            self.set_online(True)
            async for msg in self.ws:
                if msg.type == WSMessage.TEXT:
                    await self.process_ws_message(msg.data)
        except Exception as e:
            ...

async def process_ws_message(self, message: str):
    _LOGGER.debug(f"Processing WebSocket message: {message}")
    # Logic to process message...

async def _process_ws_msg(self, data: dict):
    if "action" not in data:
        if "sequence" in data:
            self._set_response(data["sequence"], data.get("error"))
        if "params" in data:
            self.dispatcher_send(SIGNAL_UPDATE, data)
        elif "config" in data:
            data["params"] = data.pop("config")
            self.dispatcher_send(SIGNAL_UPDATE, data)
        elif "error" in data:
            if data["error"] != 0:
                _LOGGER.warning(f"Cloud ERROR: {data}")
        else:
            _LOGGER.warning(f"UNKNOWN cloud msg: {data}")
    elif data["action"] == "update":
        self.dispatcher_send(SIGNAL_UPDATE, data)
    elif data["action"] == "sysmsg":
        self.dispatcher_send(SIGNAL_UPDATE, data)
    elif data["action"] == "reportSubDevice":
        pass
    else:
        _LOGGER.warning(f"UNKNOWN cloud msg: {data}")
```
-/

/-- JSON values, as far as the cloud frames need them. -/
inductive JVal
  | null
  | num (n : Int)
  | str (s : String)
  | arr (items : List JVal)
  | obj (fields : List (String × JVal))

/-- A decoded JSON object (Python dict, in insertion order, unique keys). -/
abbrev JObj := List (String × JVal)

/-- `data[k]` / `data.get(k)`. -/
def getKey (d : JObj) (k : String) : Option JVal :=
  (d.find? (fun p => p.1 == k)).map (·.2)

/-- `k in data`. -/
def hasKey (d : JObj) (k : String) : Bool :=
  (getKey d k).isSome

/-- `data["params"] = data.pop("config")`: the `config` entry is removed and
`params` (a new key) is appended in insertion order. -/
def renameConfigToParams (d : JObj) : JObj :=
  match getKey d "config" with
  | some v => d.filter (fun p => ! (p.1 == "config")) ++ [("params", v)]
  | none => d

/-- The externally visible effects of handling one cloud frame. -/
inductive CloudMsgEffect
  /-- `self._set_response(data["sequence"], data.get("error"))`. -/
  | setResponse (sequence : JVal) (error : Option JVal)
  /-- `self.dispatcher_send(SIGNAL_UPDATE, data)`. -/
  | sendUpdate (data : JObj)
  /-- `_LOGGER.warning(...)`: the frame is logged and dropped. -/
  | logWarning
  /-- `_LOGGER.debug(...)`. -/
  | logDebug

/-- Python `data[k] == s` for a string literal `s` (false on a non-string
value). -/
def valIsStr (v : Option JVal) (s : String) : Bool :=
  match v with
  | some (.str t) => t == s
  | _ => false

/-- Python `data["error"] != 0`. -/
def valNeZero (v : Option JVal) : Bool :=
  match v with
  | some (.num 0) => false
  | _ => true

/-- `XRegistryCloud._process_ws_msg`: classification of a decoded frame by
its `action` field (the `"sequence" in data` guard and the lookup
`data["sequence"]` are combined into one `match`). -/
def process_ws_msg (data : JObj) : List CloudMsgEffect :=
  if ¬ hasKey data "action" then
    (match getKey data "sequence" with
     | some seqv => [.setResponse seqv (getKey data "error")]
     | none => []) ++
    (if hasKey data "params" then [.sendUpdate data]
     else if hasKey data "config" then [.sendUpdate (renameConfigToParams data)]
     else if hasKey data "error" then
       if valNeZero (getKey data "error") then [.logWarning] else []
     else [.logWarning])
  else if valIsStr (getKey data "action") "update" then [.sendUpdate data]
  else if valIsStr (getKey data "action") "sysmsg" then [.sendUpdate data]
  else if valIsStr (getKey data "action") "reportSubDevice" then []
  else [.logWarning]

/-- `XRegistryCloud.process_ws_message`: the function `run_forever` actually
calls on every received text frame. Its whole body is one debug log; the
frame is neither parsed nor classified. -/
def process_ws_message (message : String) : List CloudMsgEffect :=
  [.logDebug]

/-- The effects `run_forever` produces for one received text frame. -/
def run_forever_text_frame (frameData : String) : List CloudMsgEffect :=
  process_ws_message frameData

/-- A concrete reply frame: `{"error": 0, "sequence": "123",
"params": {"switch": "on"}}`. -/
def replyFrame : JObj :=
  [("error", .num 0), ("sequence", .str "123"),
   ("params", .obj [("switch", .str "on")])]

/-- C2 (code bug): the cloud read loop (`run_forever`) forwards every
received text frame to `process_ws_message`, whose body is a single debug
log — for every frame it resolves no Pending Request and broadcasts nothing.
The classifier `_process_ws_msg`, which does behave exactly as the claim
describes (shown here on a reply frame carrying `sequence`/`error`/`params`,
an `update` push, a `sysmsg` push, an ignored `reportSubDevice`, a renamed
`config`, and an unknown action that is logged and dropped), is never
invoked by the read loop, so the claimed classification never happens for
received frames. -/
theorem read_loop_never_classifies :
    (∀ frame : String,
      ∀ eff ∈ run_forever_text_frame frame, eff = .logDebug) ∧
    process_ws_msg replyFrame
      = [.setResponse (.str "123") (some (.num 0)), .sendUpdate replyFrame] ∧
    process_ws_msg [("action", .str "update"), ("deviceid", .str "d1")]
      = [.sendUpdate [("action", .str "update"), ("deviceid", .str "d1")]] ∧
    process_ws_msg [("action", .str "sysmsg"), ("deviceid", .str "d1")]
      = [.sendUpdate [("action", .str "sysmsg"), ("deviceid", .str "d1")]] ∧
    process_ws_msg [("action", .str "reportSubDevice")] = [] ∧
    process_ws_msg [("action", .str "other")] = [.logWarning] ∧
    process_ws_msg [("sequence", .str "7"), ("config", .num 1)]
      = [.setResponse (.str "7") none,
         .sendUpdate [("sequence", .str "7"), ("params", .num 1)]] ∧
    run_forever_text_frame
        (String.mk ['{', '}'])
      ≠ process_ws_msg replyFrame := by
  refine ⟨fun frame eff h => ?_, rfl, rfl, rfl, rfl, rfl, rfl, fun h =>
    absurd (congrArg List.length h) (by decide)⟩
  simpa [run_forever_text_frame, process_ws_message] using h

/-! ### `XRegistry.send` (core/ewelink/__init__.py lines 94-146)

```python
seq = await self.sequence()
if "parent" in device:
    main_device = device["parent"]
    if params_lan is None and params is not None:
        params_lan = params.copy()
    if params_lan:
        params_lan["subDevId"] = device["deviceid"]
else:
    main_device = device
can_local = self.can_local(device)
can_cloud = self.can_cloud(device)
if can_local and can_cloud:
    ok = await self.local.send(main_device, params_lan or params, cmd_lan,
                               seq, timeout_lan)
    if ok != "online":
        ok = await self.cloud.send(device, params, seq)
        if ok != "online":
            asyncio.create_task(self.check_offline(main_device))
        elif query_cloud and params:
            await self.cloud.send(device, timeout=0)
elif can_local:
    ok = await self.local.send(main_device, params_lan or params, cmd_lan, seq)
    if ok != "online":
        asyncio.create_task(self.check_offline(main_device))
elif can_cloud:
    ok = await self.cloud.send(device, params, seq)
    if ok == "online" and query_cloud and params:
        await self.cloud.send(device, timeout=0)
```

`XRegistryLocal` (local.py) is not among the examined sources, so the LAN
transport's result is an oracle input `lanResult`; likewise `cloudResult`
for `XRegistryCloud.send`. `cloud.send` defaults `timeout=5`. -/

/-- Python truthiness of an optional dict (`None` and `{}` are falsy). -/
def pyTruthyObj (p : Option JObj) : Bool :=
  match p with
  | none => false
  | some l => ! l.isEmpty

/-- Python `a or b` on optional dicts. -/
def pyOr (a b : Option JObj) : Option JObj :=
  if pyTruthyObj a then a else b

/-- Python dict assignment `d[k] = v`: replaces the first entry with key
`k` in place, else appends. -/
def setKeyJ : JObj → String → JVal → JObj
  | [], k, v => [(k, v)]
  | (k', v') :: rest, k, v =>
    if k' = k then (k', v) :: rest else (k', v') :: setKeyJ rest k v

/-- A device as `XRegistry.send` sees it: its id and, for a sub-device, the
id of the bridging parent (`"parent" in device`). -/
structure SDevice where
  deviceid : String
  parentid : Option String

/-- The outbound side effects of one `XRegistry.send` call, in program
order. -/
inductive SendAction
  /-- `self.local.send(main_device, params, cmd, seq, timeout)`; `timeout`
  is `none` when the call relies on `local.send`'s own default. -/
  | lanSend (target : String) (params : Option JObj) (cmd : Option String)
      (seq : String) (timeout : Option ℕ)
  /-- `self.cloud.send(device, params, sequence, timeout)`. -/
  | cloudSend (params : Option JObj) (seq : Option String) (timeout : ℕ)
  /-- `asyncio.create_task(self.check_offline(main_device))`. -/
  | checkOffline (target : String)

/-- The `params_lan` value after the parent-handling prologue. -/
def effective_params_lan (dev : SDevice) (params params_lan : Option JObj) :
    Option JObj :=
  if dev.parentid.isSome then
    let pl :=
      match params_lan, params with
      | none, some p => some p
      | x, _ => x
    match pl with
    | some l =>
      if l.isEmpty then some l
      else some (setKeyJ l "subDevId" (.str dev.deviceid))
    | none => none
  else params_lan

/-- `XRegistry.send`: the action trace, as a function of the transport
capabilities and the two transports' results. -/
def registry_send (dev : SDevice) (params params_lan : Option JObj)
    (cmd_lan : Option String) (query_cloud : Bool) (timeout_lan : ℕ)
    (seq : String) (can_local can_cloud : Bool)
    (lanResult cloudResult : String) : List SendAction :=
  let mainId := dev.parentid.getD dev.deviceid
  let lanParams := pyOr (effective_params_lan dev params params_lan) params
  if can_local && can_cloud then
    .lanSend mainId lanParams cmd_lan seq (some timeout_lan) ::
    (if lanResult ≠ "online" then
      .cloudSend params (some seq) 5 ::
      (if cloudResult ≠ "online" then [.checkOffline mainId]
       else if query_cloud && pyTruthyObj params then [.cloudSend none none 0]
       else [])
     else [])
  else if can_local then
    .lanSend mainId lanParams cmd_lan seq none ::
    (if lanResult ≠ "online" then [.checkOffline mainId] else [])
  else if can_cloud then
    .cloudSend params (some seq) 5 ::
    (if cloudResult = "online" && query_cloud && pyTruthyObj params then
      [.cloudSend none none 0]
     else [])
  else []

/-- C6: for every `XRegistry.send` call on a device for which both
`can_local` and `can_cloud` hold, the LAN send is attempted first; on any
LAN result other than `"online"` the command falls back to the cloud
transport (default `timeout=5`); if the cloud send also returns
non-`"online"`, a `check_offline` probe is scheduled; if the cloud send
returns `"online"` with `query_cloud` true and truthy (non-empty) `params`,
exactly one follow-up cloud query (no params, `timeout=0`) is issued after
the update; and if neither transport is usable the call produces no outbound
action at all. -/
theorem router_send_both_transports (dev : SDevice)
    (params params_lan : Option JObj) (cmd_lan : Option String)
    (query_cloud : Bool) (timeout_lan : ℕ) (seq : String)
    (lanResult cloudResult : String) :
    (registry_send dev params params_lan cmd_lan query_cloud timeout_lan seq
        true true lanResult cloudResult).head?
      = some (.lanSend (dev.parentid.getD dev.deviceid)
          (pyOr (effective_params_lan dev params params_lan) params)
          cmd_lan seq (some timeout_lan)) ∧
    (lanResult = "online" →
      registry_send dev params params_lan cmd_lan query_cloud timeout_lan seq
          true true lanResult cloudResult
        = [.lanSend (dev.parentid.getD dev.deviceid)
            (pyOr (effective_params_lan dev params params_lan) params)
            cmd_lan seq (some timeout_lan)]) ∧
    (lanResult ≠ "online" → cloudResult ≠ "online" →
      registry_send dev params params_lan cmd_lan query_cloud timeout_lan seq
          true true lanResult cloudResult
        = [.lanSend (dev.parentid.getD dev.deviceid)
            (pyOr (effective_params_lan dev params params_lan) params)
            cmd_lan seq (some timeout_lan),
           .cloudSend params (some seq) 5,
           .checkOffline (dev.parentid.getD dev.deviceid)]) ∧
    (lanResult ≠ "online" → cloudResult = "online" → query_cloud = true →
      pyTruthyObj params = true →
      registry_send dev params params_lan cmd_lan query_cloud timeout_lan seq
          true true lanResult cloudResult
        = [.lanSend (dev.parentid.getD dev.deviceid)
            (pyOr (effective_params_lan dev params params_lan) params)
            cmd_lan seq (some timeout_lan),
           .cloudSend params (some seq) 5,
           .cloudSend none none 0]) ∧
    (lanResult ≠ "online" → cloudResult = "online" →
      query_cloud = false ∨ pyTruthyObj params = false →
      registry_send dev params params_lan cmd_lan query_cloud timeout_lan seq
          true true lanResult cloudResult
        = [.lanSend (dev.parentid.getD dev.deviceid)
            (pyOr (effective_params_lan dev params params_lan) params)
            cmd_lan seq (some timeout_lan),
           .cloudSend params (some seq) 5]) ∧
    (registry_send dev params params_lan cmd_lan query_cloud timeout_lan seq
        false false lanResult cloudResult = []) := by
  refine ⟨?_, ?_, ?_, ?_, ?_, ?_⟩
  · by_cases h : lanResult = "online" <;> simp [registry_send, h]
  · intro h
    simp [registry_send, h]
  · intro h1 h2
    simp [registry_send, h1, h2]
  · intro h1 h2 h3 h4
    simp [registry_send, h1, h2, h3, h4]
  · intro h1 h2 h3
    rcases h3 with h3 | h3 <;> simp [registry_send, h1, h2, h3]
  · simp [registry_send]

/-- Witness for C6 at a concrete call: a parentless device, non-empty
params, LAN returning `"timeout"`, cloud returning `"online"`,
`query_cloud=True`. -/
theorem router_send_both_transports_witness :
    registry_send ⟨"dev1", none⟩ (some [("switch", .str "on")]) none none
        true 1 "101" true true "timeout" "online"
      = [.lanSend "dev1" (some [("switch", .str "on")]) none "101" (some 1),
         .cloudSend (some [("switch", .str "on")]) (some "101") 5,
         .cloudSend none none 0] :=
  (router_send_both_transports ⟨"dev1", none⟩ (some [("switch", .str "on")])
    none none true 1 "101" "timeout" "online").2.2.2.1
    (by decide) rfl rfl rfl

/-! ### `XRegistry.check_offline` (core/ewelink/__init__.py lines 176-197)

```python
async def check_offline(self, device: XDevice):
    if not device.get("host"):
        return
    for i in range(3):
        if i > 0:
            await asyncio.sleep(5)
        ok = await self.local.send(device, command="getState")
        if ok in ("online", "error"):
            device["local_ts"] = time.time() + LOCAL_TTL
            device["local"] = True
            return
        if time.time() > device.get("local_ts", 0) + LOCAL_TTL:
            break
    device["local"] = False
    did = device["deviceid"]
    self.dispatcher_send(did)
```

`LOCAL_TTL = 60`. The LAN transport's answers are the oracle `results i`;
`times i` is the `time.time()` value during iteration `i` (in seconds, as a
natural number). -/

/-- `LOCAL_TTL = 60` (__init__.py line 18). -/
def LOCAL_TTL : ℕ := 60

/-- Python truthiness of `device.get("host")` (`None` and `""` are falsy). -/
def pyTruthyStr (s : Option String) : Bool :=
  match s with
  | none => false
  | some t => ! t.isEmpty

/-- The slice of an `XDevice` that `check_offline` reads and writes. -/
structure CODevice where
  deviceid : String
  host : Option String
  local_ts : Option ℕ
  /-- the `local` key (`local` is a Lean keyword) -/
  localFlag : Option Bool
deriving DecidableEq

/-- The observable steps of a `check_offline` run. -/
inductive COAction
  /-- `await asyncio.sleep(secs)`. -/
  | sleep (secs : ℕ)
  /-- `await self.local.send(device, command="getState")`. -/
  | probe
  /-- `self.dispatcher_send(signal)`. -/
  | fireSignal (signal : String)
deriving DecidableEq

/-- The `for i in range(3)` loop body plus the fall-through epilogue:
`fuel` is the number of iterations the `range` still allows. -/
def check_offline_iter (dev : CODevice) (results : ℕ → String)
    (times : ℕ → ℕ) : ℕ → ℕ → CODevice × List COAction
  | _, 0 =>
    ({ dev with localFlag := some false }, [.fireSignal dev.deviceid])
  | i, fuel + 1 =>
    let pre : List COAction := if i > 0 then [.sleep 5, .probe] else [.probe]
    if results i = "online" ∨ results i = "error" then
      ({ dev with local_ts := some (times i + LOCAL_TTL),
                  localFlag := some true }, pre)
    else if times i > dev.local_ts.getD 0 + LOCAL_TTL then
      ({ dev with localFlag := some false }, pre ++ [.fireSignal dev.deviceid])
    else
      let r := check_offline_iter dev results times (i + 1) fuel
      (r.1, pre ++ r.2)

/-- `XRegistry.check_offline`. -/
def check_offline (dev : CODevice) (results : ℕ → String)
    (times : ℕ → ℕ) : CODevice × List COAction :=
  if ¬ pyTruthyStr dev.host then (dev, [])
  else check_offline_iter dev results times 0 3

theorem check_offline_iter_zero (dv : CODevice) (res : ℕ → String)
    (tm : ℕ → ℕ) (f : ℕ) :
    check_offline_iter dv res tm 0 (f + 1)
      = (if res 0 = "online" ∨ res 0 = "error" then
          ({ dv with local_ts := some (tm 0 + LOCAL_TTL),
                     localFlag := some true }, [.probe])
        else if tm 0 > dv.local_ts.getD 0 + LOCAL_TTL then
          ({ dv with localFlag := some false },
            [.probe, .fireSignal dv.deviceid])
        else
          ((check_offline_iter dv res tm 1 f).1,
            .probe :: (check_offline_iter dv res tm 1 f).2)) := by
  simp only [check_offline_iter]
  norm_num

theorem check_offline_iter_pos (dv : CODevice) (res : ℕ → String)
    (tm : ℕ → ℕ) (f i : ℕ) (hi : 0 < i) :
    check_offline_iter dv res tm i (f + 1)
      = (if res i = "online" ∨ res i = "error" then
          ({ dv with local_ts := some (tm i + LOCAL_TTL),
                     localFlag := some true }, [.sleep 5, .probe])
        else if tm i > dv.local_ts.getD 0 + LOCAL_TTL then
          ({ dv with localFlag := some false },
            [.sleep 5, .probe, .fireSignal dv.deviceid])
        else
          ((check_offline_iter dv res tm (i + 1) f).1,
            .sleep 5 :: .probe :: (check_offline_iter dv res tm (i + 1) f).2)) := by
  simp only [check_offline_iter, hi, if_pos]
  split
  · rfl
  · split
    · rfl
    · rfl

theorem check_offline_iter_shape (dev : CODevice) (results : ℕ → String)
    (times : ℕ → ℕ) (fuel i : ℕ) :
    (∀ a ∈ (check_offline_iter dev results times i fuel).2,
      a = .probe ∨ a = .sleep 5 ∨ a = .fireSignal dev.deviceid) ∧
    (check_offline_iter dev results times i fuel).2.count .probe ≤ fuel ∧
    (check_offline_iter dev results times i fuel).2.count
        (.fireSignal dev.deviceid) ≤ 1 := by
  induction fuel generalizing i with
  | zero => simp [check_offline_iter]
  | succ fuel ih =>
    obtain ⟨hsh, hpc, hfc⟩ := ih (i + 1)
    have heq : check_offline_iter dev results times i (fuel + 1)
        = (if results i = "online" ∨ results i = "error" then
            ({ dev with local_ts := some (times i + LOCAL_TTL),
                        localFlag := some true },
             (if 0 < i then [.sleep 5] else []) ++ [.probe])
          else if times i > dev.local_ts.getD 0 + LOCAL_TTL then
            ({ dev with localFlag := some false },
             (if 0 < i then [.sleep 5] else [])
               ++ [.probe, .fireSignal dev.deviceid])
          else
            ((check_offline_iter dev results times (i + 1) fuel).1,
             (if 0 < i then [.sleep 5] else []) ++ .probe
               :: (check_offline_iter dev results times (i + 1) fuel).2)) := by
      rcases Nat.eq_zero_or_pos i with hi | hi
      · subst hi
        rw [check_offline_iter_zero]
        norm_num
      · rw [check_offline_iter_pos dev results times fuel i hi]
        simp [hi]
    rw [heq]
    by_cases hr : results i = "online" ∨ results i = "error"
    · rw [if_pos hr]
      by_cases hi : 0 < i <;>
        simp [hi, List.count_cons]
    · rw [if_neg hr]
      by_cases ht : times i > dev.local_ts.getD 0 + LOCAL_TTL
      · rw [if_pos ht]
        by_cases hi : 0 < i <;>
          simp [hi, List.count_cons]
      · rw [if_neg ht]
        refine ⟨?_, ?_, ?_⟩
        · intro a ha
          by_cases hi : 0 < i
          · simp only [hi, if_true, List.cons_append, List.nil_append,
              List.mem_cons] at ha
            rcases ha with ha | ha | ha
            · exact Or.inr (Or.inl ha)
            · exact Or.inl ha
            · exact hsh a ha
          · simp only [hi, if_false, List.nil_append, List.mem_cons] at ha
            rcases ha with ha | ha
            · exact Or.inl ha
            · exact hsh a ha
        · by_cases hi : 0 < i <;>
            simp [hi, List.count_append, List.count_cons] <;> omega
        · by_cases hi : 0 < i <;>
            simp [hi, List.count_append, List.count_cons] <;> omega

/-- C7: for every device with a truthy LAN host, `check_offline` issues at
most 3 LAN probes, sleeping 5 seconds before every probe but the first; a
probe returning `"online"` or `"error"` (the first such probe, reached
because every earlier probe failed without the TTL having expired) refreshes
the LAN liveness TTL to `now + LOCAL_TTL`, sets the `local` flag true, and
ends the run having fired no signal; and when every probe returns neither
`"online"` nor `"error"`, the `local` flag becomes false and exactly one
signal is fired, on the device's own id. A device without a truthy host is
left untouched. -/
theorem check_offline_probes_and_signal (dev : CODevice)
    (results : ℕ → String) (times : ℕ → ℕ)
    (hhost : pyTruthyStr dev.host = true) :
    ((check_offline dev results times).2.count .probe ≤ 3 ∧
     ∀ a ∈ (check_offline dev results times).2,
       a = .probe ∨ a = .sleep 5 ∨ a = .fireSignal dev.deviceid) ∧
    (∀ k < 3,
      (∀ j < k, ¬(results j = "online" ∨ results j = "error") ∧
        ¬ times j > dev.local_ts.getD 0 + LOCAL_TTL) →
      (results k = "online" ∨ results k = "error") →
      (check_offline dev results times).1
        = { dev with local_ts := some (times k + LOCAL_TTL),
                     localFlag := some true } ∧
      (check_offline dev results times).2.count
          (.fireSignal dev.deviceid) = 0 ∧
      (check_offline dev results times).2.count .probe = k + 1) ∧
    ((∀ j < 3, ¬(results j = "online" ∨ results j = "error")) →
      (check_offline dev results times).1.localFlag = some false ∧
      (check_offline dev results times).2.count
          (.fireSignal dev.deviceid) = 1) ∧
    (∀ dev' : CODevice, pyTruthyStr dev'.host = false →
      check_offline dev' results times = (dev', [])) := by
  have hiter0 := check_offline_iter_zero
  have hiterS := fun dv res tm f i hi =>
    check_offline_iter_pos dv res tm f i hi
  have hhost' : ¬ ¬ (pyTruthyStr dev.host = true) := by simp [hhost]
  refine ⟨?_, ?_, ?_, ?_⟩
  · have h := check_offline_iter_shape dev results times 3 0
    unfold check_offline
    rw [if_neg hhost']
    exact ⟨h.2.1, h.1⟩
  · intro k hk hprev hcurr
    unfold check_offline
    rw [if_neg hhost']
    interval_cases k
    · rw [hiter0, if_pos hcurr]
      simp
    · obtain ⟨hn0, ht0⟩ := hprev 0 (by norm_num)
      rw [hiter0, if_neg hn0, if_neg ht0, hiterS dev results times 1 1
        (by norm_num), if_pos hcurr]
      simp [List.count_cons]
    · obtain ⟨hn0, ht0⟩ := hprev 0 (by norm_num)
      obtain ⟨hn1, ht1⟩ := hprev 1 (by norm_num)
      rw [hiter0, if_neg hn0, if_neg ht0, hiterS dev results times 1 1
        (by norm_num), if_neg hn1, if_neg ht1, hiterS dev results times 0 2
        (by norm_num), if_pos hcurr]
      simp [List.count_cons]
  · intro hall
    unfold check_offline
    rw [if_neg hhost']
    rw [hiter0, if_neg (hall 0 (by norm_num))]
    by_cases ht0 : times 0 > dev.local_ts.getD 0 + LOCAL_TTL
    · rw [if_pos ht0]
      simp [List.count_cons]
    · rw [if_neg ht0, hiterS dev results times 1 1 (by norm_num),
        if_neg (hall 1 (by norm_num))]
      by_cases ht1 : times 1 > dev.local_ts.getD 0 + LOCAL_TTL
      · rw [if_pos ht1]
        simp [List.count_cons]
      · rw [if_neg ht1, hiterS dev results times 0 2 (by norm_num),
          if_neg (hall 2 (by norm_num))]
        by_cases ht2 : times 2 > dev.local_ts.getD 0 + LOCAL_TTL
        · rw [if_pos ht2]
          simp [List.count_cons]
        · rw [if_neg ht2]
          simp [check_offline_iter, List.count_cons]
  · intro dev' h
    simp [check_offline, h]

/-- Witness for C7 at a concrete run: a device with host `"1.2.3.4"` and a
lapsed TTL, with all three probes returning `"timeout"` within the TTL
grace: the device is marked non-local and exactly one signal fires. -/
theorem check_offline_probes_and_signal_witness :
    pyTruthyStr (some "1.2.3.4") = true ∧
    (check_offline ⟨"d7", some "1.2.3.4", some 1000, some true⟩
        (fun _ => "timeout") (fun _ => 1000)).1.localFlag = some false ∧
    (check_offline ⟨"d7", some "1.2.3.4", some 1000, some true⟩
        (fun _ => "timeout") (fun _ => 1000)).2.count (.fireSignal "d7")
      = 1 := by
  have h := check_offline_probes_and_signal
    ⟨"d7", some "1.2.3.4", some 1000, some true⟩
    (fun _ => "timeout") (fun _ => 1000) (by decide)
  have h2 := h.2.2.1 (by intro j hj; simp)
  exact ⟨by decide, h2.1, h2.2⟩

/-! ### `XRegistryCloud.login` (cloud.py lines 336-379)

```python
async def login(self, username, password, country_code="+86", app=0) -> bool:
    if username == "token":
        self.region, token = password.split(":")
        return await self.login_token(token, 1)
    self.region = REGIONS[country_code][1]
    payload = ...
    r = await self.session.post(self.host + "/v2/user/login", data=data,
                                headers=headers, timeout=5)
    resp = await r.json()
    if resp["error"] == 10004:
        self.region = resp["data"]["region"]
        r = await self.session.post(self.host + "/v2/user/login", data=data,
                                    headers=headers, timeout=5)
        resp = await r.json()
    if resp["error"] != 0:
        raise AuthError(resp["msg"])
    self.auth = resp["data"]
    self.auth["appid"] = APP[0]
    return True
```

`self.host` is `API[self.region]`. The two server responses are oracle
inputs `resp1` (first attempt) and `resp2` (used only when the first
attempt answers error 10004). -/

/-- The `API` region-to-host table (cloud.py lines 17-22). -/
def apiHost : String -> Option String
  | "cn" => some "https://cn-apia.coolkit.cn"
  | "as" => some "https://as-apia.coolkit.cc"
  | "us" => some "https://us-apia.coolkit.cc"
  | "eu" => some "https://eu-apia.coolkit.cc"
  | _ => none

/-- The static country-code table (cloud.py lines 33-239):
`(countryCode, countryName, region)` entries, in source order. -/
def REGIONS : List (String × String × String) := [
  ("+93", "Afghanistan", "as"),
  ("+355", "Albania", "eu"),
  ("+213", "Algeria", "eu"),
  ("+376", "Andorra", "eu"),
  ("+244", "Angola", "eu"),
  ("+1264", "Anguilla", "us"),
  ("+1268", "Antigua and Barbuda", "as"),
  ("+54", "Argentina", "us"),
  ("+374", "Armenia", "as"),
  ("+297", "Aruba", "eu"),
  ("+247", "Ascension", "eu"),
  ("+61", "Australia", "us"),
  ("+43", "Austria", "eu"),
  ("+994", "Azerbaijan", "as"),
  ("+1242", "Bahamas", "us"),
  ("+973", "Bahrain", "as"),
  ("+880", "Bangladesh", "as"),
  ("+1246", "Barbados", "us"),
  ("+375", "Belarus", "eu"),
  ("+32", "Belgium", "eu"),
  ("+501", "Belize", "us"),
  ("+229", "Benin", "eu"),
  ("+1441", "Bermuda", "as"),
  ("+591", "Bolivia", "us"),
  ("+387", "Bosnia and Herzegovina", "eu"),
  ("+267", "Botswana", "eu"),
  ("+55", "Brazil", "us"),
  ("+673", "Brunei", "as"),
  ("+359", "Bulgaria", "eu"),
  ("+226", "Burkina Faso", "eu"),
  ("+257", "Burundi", "eu"),
  ("+855", "Cambodia", "as"),
  ("+237", "Cameroon", "eu"),
  ("+238", "Cape Verde Republic", "eu"),
  ("+1345", "Cayman Islands", "as"),
  ("+236", "Central African Republic", "eu"),
  ("+235", "Chad", "eu"),
  ("+56", "Chile", "us"),
  ("+86", "China", "cn"),
  ("+57", "Colombia", "us"),
  ("+682", "Cook Islands", "us"),
  ("+506", "Costa Rica", "us"),
  ("+385", "Croatia", "eu"),
  ("+53", "Cuba", "us"),
  ("+357", "Cyprus", "eu"),
  ("+420", "Czech", "eu"),
  ("+243", "Democratic Republic of Congo", "eu"),
  ("+45", "Denmark", "eu"),
  ("+253", "Djibouti", "eu"),
  ("+1767", "Dominica", "as"),
  ("+1809", "Dominican Republic", "us"),
  ("+670", "East Timor", "as"),
  ("+684", "Eastern Samoa (US)", "us"),
  ("+593", "Ecuador", "us"),
  ("+20", "Egypt", "eu"),
  ("+503", "El Salvador", "us"),
  ("+372", "Estonia", "eu"),
  ("+251", "Ethiopia", "eu"),
  ("+298", "Faroe Islands", "eu"),
  ("+679", "Fiji", "us"),
  ("+358", "Finland", "eu"),
  ("+33", "France", "eu"),
  ("+594", "French Guiana", "us"),
  ("+689", "French Polynesia", "as"),
  ("+241", "Gabon", "eu"),
  ("+220", "Gambia", "eu"),
  ("+995", "Georgia", "as"),
  ("+49", "Germany", "eu"),
  ("+233", "Ghana", "eu"),
  ("+350", "Gibraltar", "eu"),
  ("+30", "Greece", "eu"),
  ("+299", "Greenland", "us"),
  ("+1473", "Grenada", "as"),
  ("+590", "Guadeloupe", "us"),
  ("+1671", "Guam", "us"),
  ("+502", "Guatemala", "us"),
  ("+240", "Guinea", "eu"),
  ("+224", "Guinea", "eu"),
  ("+592", "Guyana", "us"),
  ("+509", "Haiti", "us"),
  ("+504", "Honduras", "us"),
  ("+852", "Hong Kong, China", "as"),
  ("+36", "Hungary", "eu"),
  ("+354", "Iceland", "eu"),
  ("+91", "India", "as"),
  ("+62", "Indonesia", "as"),
  ("+98", "Iran", "as"),
  ("+353", "Ireland", "eu"),
  ("+269", "Islamic Federal Republic of Comoros", "eu"),
  ("+972", "Israel", "as"),
  ("+39", "Italian", "eu"),
  ("+225", "Ivory Coast", "eu"),
  ("+1876", "Jamaica", "us"),
  ("+81", "Japan", "as"),
  ("+962", "Jordan", "as"),
  ("+254", "Kenya", "eu"),
  ("+975", "Kingdom of Bhutan", "as"),
  ("+383", "Kosovo", "eu"),
  ("+965", "Kuwait", "as"),
  ("+996", "Kyrgyzstan", "as"),
  ("+856", "Laos", "as"),
  ("+371", "Latvia", "eu"),
  ("+961", "Lebanon", "as"),
  ("+266", "Lesotho", "eu"),
  ("+231", "Liberia", "eu"),
  ("+218", "Libya", "eu"),
  ("+423", "Liechtenstein", "eu"),
  ("+370", "Lithuania", "eu"),
  ("+352", "Luxembourg", "eu"),
  ("+853", "Macau, China", "as"),
  ("+261", "Madagascar", "eu"),
  ("+265", "Malawi", "eu"),
  ("+60", "Malaysia", "as"),
  ("+960", "Maldives", "as"),
  ("+223", "Mali", "eu"),
  ("+356", "Malta", "eu"),
  ("+596", "Martinique", "us"),
  ("+222", "Mauritania", "eu"),
  ("+230", "Mauritius", "eu"),
  ("+52", "Mexico", "us"),
  ("+373", "Moldova", "eu"),
  ("+377", "Monaco", "eu"),
  ("+976", "Mongolia", "as"),
  ("+382", "Montenegro", "as"),
  ("+1664", "Montserrat", "as"),
  ("+212", "Morocco", "eu"),
  ("+258", "Mozambique", "eu"),
  ("+95", "Myanmar", "as"),
  ("+264", "Namibia", "eu"),
  ("+977", "Nepal", "as"),
  ("+31", "Netherlands", "eu"),
  ("+599", "Netherlands Antilles", "as"),
  ("+687", "New Caledonia", "as"),
  ("+64", "New Zealand", "us"),
  ("+505", "Nicaragua", "us"),
  ("+227", "Niger", "eu"),
  ("+234", "Nigeria", "eu"),
  ("+47", "Norway", "eu"),
  ("+968", "Oman", "as"),
  ("+92", "Pakistan", "as"),
  ("+970", "Palestine", "as"),
  ("+507", "Panama", "us"),
  ("+675", "Papua New Guinea", "as"),
  ("+595", "Paraguay", "us"),
  ("+51", "Peru", "us"),
  ("+63", "Philippines", "as"),
  ("+48", "Poland", "eu"),
  ("+351", "Portugal", "eu"),
  ("+974", "Qatar", "as"),
  ("+242", "Republic of Congo", "eu"),
  ("+964", "Republic of Iraq", "as"),
  ("+389", "Republic of Macedonia", "eu"),
  ("+262", "Reunion", "eu"),
  ("+40", "Romania", "eu"),
  ("+7", "Russia", "eu"),
  ("+250", "Rwanda", "eu"),
  ("+1869", "Saint Kitts and Nevis", "as"),
  ("+1758", "Saint Lucia", "us"),
  ("+1784", "Saint Vincent", "as"),
  ("+378", "San Marino", "eu"),
  ("+239", "Sao Tome and Principe", "eu"),
  ("+966", "Saudi Arabia", "as"),
  ("+221", "Senegal", "eu"),
  ("+381", "Serbia", "eu"),
  ("+248", "Seychelles", "eu"),
  ("+232", "Sierra Leone", "eu"),
  ("+65", "Singapore", "as"),
  ("+421", "Slovakia", "eu"),
  ("+386", "Slovenia", "eu"),
  ("+27", "South Africa", "eu"),
  ("+82", "South Korea", "as"),
  ("+34", "Spain", "eu"),
  ("+94", "Sri Lanka", "as"),
  ("+249", "Sultan", "eu"),
  ("+597", "Suriname", "us"),
  ("+268", "Swaziland", "eu"),
  ("+46", "Sweden", "eu"),
  ("+41", "Switzerland", "eu"),
  ("+963", "Syria", "as"),
  ("+886", "Taiwan, China", "as"),
  ("+992", "Tajikistan", "as"),
  ("+255", "Tanzania", "eu"),
  ("+66", "Thailand", "as"),
  ("+228", "Togo", "eu"),
  ("+676", "Tonga", "us"),
  ("+1868", "Trinidad and Tobago", "us"),
  ("+216", "Tunisia", "eu"),
  ("+90", "Turkey", "as"),
  ("+993", "Turkmenistan", "as"),
  ("+1649", "Turks and Caicos", "as"),
  ("+44", "UK", "eu"),
  ("+256", "Uganda", "eu"),
  ("+380", "Ukraine", "eu"),
  ("+971", "United Arab Emirates", "as"),
  ("+1", "United States", "us"),
  ("+598", "Uruguay", "us"),
  ("+998", "Uzbekistan", "as"),
  ("+678", "Vanuatu", "us"),
  ("+58", "Venezuela", "us"),
  ("+84", "Vietnam", "as"),
  ("+685", "Western Samoa", "us"),
  ("+1340", "Wilk Islands", "as"),
  ("+967", "Yemen", "as"),
  ("+260", "Zambia", "eu"),
  ("+263", "Zimbabwe", "eu")
]

/-- `REGIONS[country_code][1]` (`none` models the `KeyError`). -/
def regionsLookup (cc : String) : Option String :=
  (REGIONS.find? (fun p => p.1 == cc)).map (fun p => p.2.2)

/-- A login HTTP response, as far as `login` reads it. -/
structure LoginResp where
  error : Int
  msg : String
  /-- `resp["data"]["region"]`, when present. -/
  dataRegion : Option String

/-- What a `login` call did. -/
inductive LoginOutcome
  /-- `username == "token"`: delegated to `login_token`. -/
  | tokenPath
  /-- `KeyError`: unknown country code, a 10004 response without
  `data.region`, or a server-supplied region missing from `API`. -/
  | keyError
  /-- the POSTed login URLs, in order, and the final result
  (`.error msg` is a raised `AuthError(msg)`). -/
  | run (hosts : List String) (result : Except String Unit)

/-- `XRegistryCloud.login`. -/
def login (username country_code : String) (resp1 resp2 : LoginResp) :
    LoginOutcome :=
  if username = "token" then .tokenPath
  else
    match regionsLookup country_code with
    | none => .keyError
    | some region0 =>
      match apiHost region0 with
      | none => .keyError
      | some h0 =>
        if resp1.error = 10004 then
          match resp1.dataRegion with
          | none => .keyError
          | some region1 =>
            match apiHost region1 with
            | none => .keyError
            | some h1 =>
              if resp2.error ≠ 0 then
                .run [h0 ++ "/v2/user/login", h1 ++ "/v2/user/login"]
                  (.error resp2.msg)
              else
                .run [h0 ++ "/v2/user/login", h1 ++ "/v2/user/login"] (.ok ())
        else if resp1.error ≠ 0 then
          .run [h0 ++ "/v2/user/login"] (.error resp1.msg)
        else
          .run [h0 ++ "/v2/user/login"] (.ok ())

/-- C8: `login(username, password, countryCode)` resolves the region from
the static country-to-region table (in particular `"+1"` resolves `us`); a
first response with error code 10004 causes exactly one retry against the
server-supplied alternate region's host (e.g. `{"error":10004,
"data":{"region":"eu"}}` retries once against the `eu` host) before
succeeding or failing; and whenever the final response's error code is
non-zero, `login` raises `AuthError` with the server's message. -/
theorem login_region_retry_autherror (username cc : String)
    (resp1 resp2 : LoginResp) (r0 h0 : String)
    (huser : username ≠ "token")
    (hr : regionsLookup cc = some r0) (hh : apiHost r0 = some h0) :
    regionsLookup "+1" = some "us" ∧
    (resp1.error ≠ 10004 → resp1.error ≠ 0 →
      login username cc resp1 resp2
        = .run [h0 ++ "/v2/user/login"] (.error resp1.msg)) ∧
    (resp1.error ≠ 10004 → resp1.error = 0 →
      login username cc resp1 resp2
        = .run [h0 ++ "/v2/user/login"] (.ok ())) ∧
    (∀ r1 h1, resp1.error = 10004 → resp1.dataRegion = some r1 →
      apiHost r1 = some h1 →
      login username cc resp1 resp2
        = .run [h0 ++ "/v2/user/login", h1 ++ "/v2/user/login"]
            (if resp2.error ≠ 0 then .error resp2.msg else .ok ())) := by
  refine ⟨by rfl, ?_, ?_, ?_⟩
  · intro h1 h2
    unfold login
    rw [if_neg huser, hr]
    dsimp only
    rw [hh]
    dsimp only
    rw [if_neg h1, if_pos h2]
  · intro h1 h2
    unfold login
    rw [if_neg huser, hr]
    dsimp only
    rw [hh]
    dsimp only
    rw [if_neg h1, if_neg (by simp [h2])]
  · intro r1 h1 he hdr hh1
    unfold login
    rw [if_neg huser, hr]
    dsimp only
    rw [hh]
    dsimp only
    rw [if_pos he, hdr]
    dsimp only
    rw [hh1]
    dsimp only
    by_cases h2 : resp2.error ≠ 0
    · rw [if_pos h2, if_pos h2]
    · rw [if_neg h2, if_neg h2]

/-- Witness for C8 at a concrete login: countryCode `"+1"` resolves `us`;
the first response `{"error":10004,"data":{"region":"eu"}}` causes exactly
one retry against the `eu` host, which succeeds. -/
theorem login_region_retry_autherror_witness :
    login "user@example.com" "+1" ⟨10004, "wrong region", some "eu"⟩
        ⟨0, "", none⟩
      = .run ["https://us-apia.coolkit.cc/v2/user/login",
              "https://eu-apia.coolkit.cc/v2/user/login"] (.ok ()) := by
  have h := (login_region_retry_autherror "user@example.com" "+1"
    ⟨10004, "wrong region", some "eu"⟩ ⟨0, "", none⟩ "us"
    "https://us-apia.coolkit.cc" (by decide) (by rfl) rfl).2.2.2
    "eu" "https://eu-apia.coolkit.cc" rfl rfl rfl
  rw [h]
  norm_num
  exact ⟨rfl, rfl⟩

/-! ### `XRegistry.send_bulk` (core/ewelink/__init__.py lines 148-166)

```python
async def send_bulk(self, device: XDevice, params: Dict):
    assert "switches" in params

    if "params_bulk" in device:
        for new in params["switches"]:
            for old in device["params_bulk"]["switches"]:
                if new["outlet"] == old["outlet"]:
                    old["switch"] = new["switch"]
                    break
            else:
                device["params_bulk"]["switches"].append(new)
    else:
        device["params_bulk"] = params

    await asyncio.sleep(0.1)

    if params := device.pop("params_bulk", None):
        return await self.send(device, params)
```

The `params` dict is modelled by its `switches` entry: `none` when the key
`"switches"` is absent (any other keys are never read). One call is
modelled in isolation: after the 100 ms sleep this call's `pop` recovers the
accumulated payload and forwards it to `send`. -/

/-- One element of a `switches` array. -/
structure SwitchEntry where
  outlet : Int
  switch : String
deriving DecidableEq

/-- The inner `for`/`else`: updates the first accumulated entry with a
matching outlet in place, else reports no match. -/
def setFirstMatch : List SwitchEntry → SwitchEntry → List SwitchEntry × Bool
  | [], _ => ([], false)
  | old :: rest, new =>
    if old.outlet = new.outlet then ({ old with switch := new.switch } :: rest, true)
    else
      let r := setFirstMatch rest new
      (old :: r.1, r.2)

/-- Merging one incoming entry into the accumulator (`break` hit the match,
or the `for`/`else` appends). -/
def mergeOne (acc : List SwitchEntry) (new : SwitchEntry) : List SwitchEntry :=
  let r := setFirstMatch acc new
  if r.2 then r.1 else r.1 ++ [new]

/-- The outer `for new in params["switches"]` loop. -/
def mergeSwitches (acc news : List SwitchEntry) : List SwitchEntry :=
  news.foldl mergeOne acc

/-- The slice of an `XDevice` that `send_bulk` touches: the pending
`params_bulk` accumulator (by its `switches` array). -/
structure BDevice where
  deviceid : String
  params_bulk : Option (List SwitchEntry)
deriving DecidableEq

/-- How one `send_bulk` call ends. -/
inductive BulkOutcome
  /-- `assert "switches" in params` failed: `AssertionError` raised before
  anything is mutated or sent. -/
  | assertionError
  /-- the merged payload handed to `self.send(device, params)`. -/
  | sent (switches : List SwitchEntry)
deriving DecidableEq

/-- `XRegistry.send_bulk` (one call in isolation): returns the device after
the call and the outcome. -/
def send_bulk (dev : BDevice) (params : Option (List SwitchEntry)) :
    BDevice × BulkOutcome :=
  match params with
  | none => (dev, .assertionError)
  | some news =>
    let acc :=
      match dev.params_bulk with
      | some old => mergeSwitches old news
      | none => news
    ({ dev with params_bulk := none }, .sent acc)

/-- C10: for every device and every `params` dict without the key
`"switches"`, `send_bulk` raises `AssertionError` immediately — the device
(in particular its pending `params_bulk` accumulator) is unchanged and
nothing is sent; and whenever `params` does contain `"switches"`, the
assertion never fires and the call proceeds to merge-and-send: the
accumulated outlets are merged with the incoming ones (matching outlet
updated in place, unseen outlets appended) and exactly the merged payload is
handed to `send`. -/
theorem send_bulk_asserts_switches (dev : BDevice)
    (news : List SwitchEntry) :
    send_bulk dev none = (dev, .assertionError) ∧
    (∀ d : BDevice, (send_bulk d none).1 = d) ∧
    send_bulk dev (some news)
      = ({ dev with params_bulk := none },
         .sent (match dev.params_bulk with
                | some old => mergeSwitches old news
                | none => news)) ∧
    (∀ d : BDevice, ∀ p : Option (List SwitchEntry),
      (send_bulk d p).2 = .assertionError ↔ p = none) := by
  refine ⟨rfl, fun d => rfl, rfl, ?_⟩
  intro d p
  constructor
  · intro h
    cases p with
    | none => rfl
    | some news' => simp [send_bulk] at h
  · intro h
    subst h
    rfl

/-- Witness for C10: merging `switches` for outlets 0 and 1 into an
accumulator holding outlet 0 updates outlet 0 in place and appends
outlet 1; a call without `"switches"` leaves the same device untouched. -/
theorem send_bulk_asserts_switches_witness :
    send_bulk ⟨"d1", none⟩ none = (⟨"d1", none⟩, .assertionError) ∧
    send_bulk ⟨"d1", some [⟨0, "on"⟩]⟩ (some [⟨0, "off"⟩, ⟨1, "on"⟩])
      = (⟨"d1", none⟩, .sent [⟨0, "off"⟩, ⟨1, "on"⟩]) := by
  have h := send_bulk_asserts_switches (⟨"d1", some [⟨0, "on"⟩]⟩ : BDevice)
    [⟨0, "off"⟩, ⟨1, "on"⟩]
  refine ⟨(send_bulk_asserts_switches ⟨"d1", none⟩ []).1, ?_⟩
  rw [h.2.2.1]
  decide

/-! ### Energy-history decoding (sensor.py lines 194-208, 236-247, 253-262)

```python
class XEnergySensor(...):
    @staticmethod
    def decode_energy(value: str) -> Optional[list]:
        try:
            return [
                round(
                    int(value[i : i + 2], 16)
                    + int(value[i + 3], 10) * 0.1
                    + int(value[i + 5], 10) * 0.01,
                    2,
                )
                for i in range(0, len(value), 6)
            ]
        except Exception:
            return None

class XEnergySensorDualR3(XEnergySensor, ...):
    @staticmethod
    def decode_energy(value: str) -> Optional[list]:
        try:
            return [
                round(
                    int(value[i : i + 2], 16) + int(value[i + 2 : i + 4], 10) * 0.01, 2
                )
                for i in range(0, len(value), 4)
            ]
        except Exception:
            return None

class XEnergySensorPOWR3(XEnergySensor, ...):
    @staticmethod
    def decode_energy(value: str) -> Optional[list]:
        try:
            return [
                round(int(value[i], 16) + int(value[i + 1 : i + 3], 10) * 0.01, 2)
                for i in range(0, len(value), 3)
            ]
        except Exception:
            return None
```

A comprehension over `range(0, len(value), step)` guarded by
`try`/`except → None` is `mapM` over the index list
`range' 0 ⌈len/step⌉ step` in the `Option` monad: the first failing chunk
makes the result `None`. `int(x, b)` is modelled on the digit alphabet (the
only characters the encoding scheme emits); a failing index access
(`value[i+3]`) is a failing `List.get?`. Values are exact rationals and
`round(x, 2)` is rounding to hundredths, which the claim's "within rounding
tolerance" licenses in place of binary floating point. -/

/-- Value of one hexadecimal digit (as `int(_, 16)` accepts them). -/
def hexDigitVal? (c : Char) : Option ℕ :=
  if '0' ≤ c ∧ c ≤ '9' then some (c.toNat - 48)
  else if 'a' ≤ c ∧ c ≤ 'f' then some (c.toNat - 87)
  else if 'A' ≤ c ∧ c ≤ 'F' then some (c.toNat - 55)
  else none

/-- Value of one decimal digit. -/
def decDigitVal? (c : Char) : Option ℕ :=
  if '0' ≤ c ∧ c ≤ '9' then some (c.toNat - 48) else none

/-- Python `int(s, base)` on digit strings: fails on the empty string and on
any non-digit character. -/
def pyIntOfDigits (digitVal : Char → Option ℕ) (base : ℕ)
    (l : List Char) : Option ℕ :=
  if l.isEmpty then none
  else l.foldl (fun acc c => acc.bind fun a =>
    (digitVal c).map fun d => a * base + d) (some 0)

/-- `int(s, 16)`. -/
def pyIntHex (l : List Char) : Option ℕ := pyIntOfDigits hexDigitVal? 16 l

/-- `int(s, 10)` / `int(s)`. -/
def pyIntDec (l : List Char) : Option ℕ := pyIntOfDigits decDigitVal? 10 l

/-- Python `round(x, 2)` on exact rationals. -/
def pyRound2 (q : ℚ) : ℚ := (round (q * 100) : ℤ) / 100

namespace XEnergySensor

/-- One 6-character chunk of the standard variant, read through
`value.drop i` (so `c.take 2` is `value[i:i+2]`, `c.get? 3` is the
`value[i+3]` index access, and so on). -/
def chunk (c : List Char) : Option ℚ :=
  (pyIntHex (c.take 2)).bind fun a =>
    (c.get? 3).bind fun c3 => (pyIntDec [c3]).bind fun d3 =>
      (c.get? 5).bind fun c5 => (pyIntDec [c5]).map fun d5 : ℕ =>
        pyRound2 ((a : ℚ) + (d3 : ℚ) * (1 / 10) + (d5 : ℚ) * (1 / 100))

/-- `XEnergySensor.decode_energy`. -/
def decode_energy (s : List Char) : Option (List ℚ) :=
  (List.range' 0 ((s.length + 5) / 6) 6).mapM fun i => chunk (s.drop i)

end XEnergySensor

namespace XEnergySensorDualR3

/-- One 4-character chunk of the DualR3 variant. -/
def chunk (c : List Char) : Option ℚ :=
  (pyIntHex (c.take 2)).bind fun a =>
    (pyIntDec ((c.drop 2).take 2)).map fun b : ℕ =>
      pyRound2 ((a : ℚ) + (b : ℚ) * (1 / 100))

/-- `XEnergySensorDualR3.decode_energy`. -/
def decode_energy (s : List Char) : Option (List ℚ) :=
  (List.range' 0 ((s.length + 3) / 4) 4).mapM fun i => chunk (s.drop i)

end XEnergySensorDualR3

namespace XEnergySensorPOWR3

/-- One 3-character chunk of the POWR3 variant (`int(value[i], 16)` is a
single-character hex parse after an index access). -/
def chunk (c : List Char) : Option ℚ :=
  (c.get? 0).bind fun c0 => (pyIntHex [c0]).bind fun a =>
    (pyIntDec ((c.drop 1).take 2)).map fun b : ℕ =>
      pyRound2 ((a : ℚ) + (b : ℚ) * (1 / 100))

/-- `XEnergySensorPOWR3.decode_energy`. -/
def decode_energy (s : List Char) : Option (List ℚ) :=
  (List.range' 0 ((s.length + 2) / 3) 3).mapM fun i => chunk (s.drop i)

end XEnergySensorPOWR3

/-! The encoders below follow the spec's words ("the documented
hex-integer-part plus BCD-decimal-digits scheme"): the integer part as
fixed-width hexadecimal, each decimal field as zero-padded decimal digits —
6 characters per value for the standard variant (2 hex + 2-digit tenths
field + 2-digit hundredths field, each decimal field `0`-padded to one
significant digit), 4 for DualR3 (2 hex + 2-digit hundredths), 3 for POWR3
(1 hex + 2-digit hundredths). They exist only to state the round-trip. -/

/-- Lowercase hexadecimal digit character. -/
def hexChar (d : ℕ) : Char :=
  if d < 10 then Char.ofNat (48 + d) else Char.ofNat (87 + d)

/-- Decimal digit character. -/
def decChar (d : ℕ) : Char := Char.ofNat (48 + d)

/-- Two-character hexadecimal byte. -/
def hexByte (n : ℕ) : List Char := [hexChar (n / 16), hexChar (n % 16)]

/-- Two-character zero-padded decimal field. -/
def dec2 (n : ℕ) : List Char := [decChar (n / 10), decChar (n % 10)]

/-- Standard-variant chunk for a value `n + d/10 + e/100`. -/
def encodeStdChunk (x : ℕ × ℕ × ℕ) : List Char :=
  hexByte x.1 ++ dec2 x.2.1 ++ dec2 x.2.2

/-- Standard-variant encoding of a value list. -/
def encodeStd (xs : List (ℕ × ℕ × ℕ)) : List Char :=
  (xs.map encodeStdChunk).flatten

/-- DualR3 chunk for a value `n + c/100`. -/
def encodeDualChunk (x : ℕ × ℕ) : List Char := hexByte x.1 ++ dec2 x.2

/-- DualR3 encoding of a value list. -/
def encodeDual (xs : List (ℕ × ℕ)) : List Char :=
  (xs.map encodeDualChunk).flatten

/-- POWR3 chunk for a value `n + c/100`. -/
def encodePowChunk (x : ℕ × ℕ) : List Char := hexChar x.1 :: dec2 x.2

/-- POWR3 encoding of a value list. -/
def encodePow (xs : List (ℕ × ℕ)) : List Char :=
  (xs.map encodePowChunk).flatten

/-- The rational value a standard-variant triple denotes. -/
def stdVal (x : ℕ × ℕ × ℕ) : ℚ :=
  (x.1 : ℚ) + (x.2.1 : ℚ) / 10 + (x.2.2 : ℚ) / 100

/-- The rational value an integer-part/hundredths pair denotes. -/
def centsVal (x : ℕ × ℕ) : ℚ := (x.1 : ℚ) + (x.2 : ℚ) / 100

theorem hexDigitVal_hexChar : ∀ d < 16, hexDigitVal? (hexChar d) = some d := by
  decide

theorem decDigitVal_decChar : ∀ d < 10, decDigitVal? (decChar d) = some d := by
  decide

theorem pyIntHex_hexByte {n : ℕ} (h : n < 256) :
    pyIntHex (hexByte n) = some n := by
  unfold pyIntHex pyIntOfDigits hexByte
  simp [hexDigitVal_hexChar (n / 16) (by omega),
    hexDigitVal_hexChar (n % 16) (by omega)]
  omega

theorem pyIntHex_single {n : ℕ} (h : n < 16) :
    pyIntHex [hexChar n] = some n := by
  unfold pyIntHex pyIntOfDigits
  simp [hexDigitVal_hexChar n h]

theorem pyIntDec_dec2 {n : ℕ} (h : n < 100) :
    pyIntDec (dec2 n) = some n := by
  unfold pyIntDec pyIntOfDigits dec2
  simp [decDigitVal_decChar (n / 10) (by omega),
    decDigitVal_decChar (n % 10) (by omega)]
  omega

theorem pyIntDec_single {n : ℕ} (h : n < 10) :
    pyIntDec [decChar n] = some n := by
  unfold pyIntDec pyIntOfDigits
  simp [decDigitVal_decChar n h]

theorem pyRound2_hundredths (k : ℕ) :
    pyRound2 ((k : ℚ) / 100) = (k : ℚ) / 100 := by
  unfold pyRound2
  rw [div_mul_cancel₀ _ (by norm_num : (100 : ℚ) ≠ 0), round_natCast]
  push_cast
  ring

theorem chunk_encodeStd (n d e : ℕ) (hn : n < 256) (hd : d < 10)
    (he : e < 10) (rest : List Char) :
    XEnergySensor.chunk (encodeStdChunk (n, d, e) ++ rest)
      = some (stdVal (n, d, e)) := by
  have hd' : d % 10 = d := Nat.mod_eq_of_lt hd
  have he' : e % 10 = e := Nat.mod_eq_of_lt he
  have hsplit : encodeStdChunk (n, d, e) ++ rest
      = hexChar (n / 16) :: hexChar (n % 16) :: decChar (d / 10)
        :: decChar (d % 10) :: decChar (e / 10) :: decChar (e % 10) :: rest := by
    simp [encodeStdChunk, hexByte, dec2]
  have htake : (encodeStdChunk (n, d, e) ++ rest).take 2 = hexByte n := by
    rw [hsplit]
    simp [hexByte]
  have hg3 : (encodeStdChunk (n, d, e) ++ rest).get? 3
      = some (decChar (d % 10)) := by
    rw [hsplit]
    rfl
  have hg5 : (encodeStdChunk (n, d, e) ++ rest).get? 5
      = some (decChar (e % 10)) := by
    rw [hsplit]
    rfl
  unfold XEnergySensor.chunk
  rw [htake, hg3, hg5, pyIntHex_hexByte hn, hd', he']
  simp only [Option.some_bind, pyIntDec_single hd, pyIntDec_single he,
    Option.map_some']
  show some (pyRound2 ((n : ℚ) + (d : ℚ) * (1 / 10) + (e : ℚ) * (1 / 100)))
      = some (stdVal (n, d, e))
  have hval : (n : ℚ) + (d : ℚ) * (1 / 10) + (e : ℚ) * (1 / 100)
      = ((100 * n + 10 * d + e : ℕ) : ℚ) / 100 := by
    push_cast
    ring
  rw [hval, pyRound2_hundredths]
  unfold stdVal
  congr 1
  push_cast
  ring

theorem chunk_encodeDual (n c : ℕ) (hn : n < 256) (hc : c < 100)
    (rest : List Char) :
    XEnergySensorDualR3.chunk (encodeDualChunk (n, c) ++ rest)
      = some (centsVal (n, c)) := by
  have htake : (encodeDualChunk (n, c) ++ rest).take 2 = hexByte n := by
    simp [encodeDualChunk, hexByte, dec2]
  have hmid : ((encodeDualChunk (n, c) ++ rest).drop 2).take 2 = dec2 c := by
    simp [encodeDualChunk, hexByte, dec2]
  unfold XEnergySensorDualR3.chunk
  rw [htake, hmid, pyIntHex_hexByte hn, pyIntDec_dec2 hc]
  simp only [Option.some_bind, Option.map_some']
  have hval : (n : ℚ) + (c : ℚ) * (1 / 100)
      = ((100 * n + c : ℕ) : ℚ) / 100 := by
    push_cast
    ring
  rw [hval, pyRound2_hundredths]
  unfold centsVal
  congr 1
  push_cast
  ring

theorem chunk_encodePow (n c : ℕ) (hn : n < 16) (hc : c < 100)
    (rest : List Char) :
    XEnergySensorPOWR3.chunk (encodePowChunk (n, c) ++ rest)
      = some (centsVal (n, c)) := by
  have hg0 : (encodePowChunk (n, c) ++ rest).get? 0 = some (hexChar n) := by
    simp [encodePowChunk]
  have hmid : ((encodePowChunk (n, c) ++ rest).drop 1).take 2 = dec2 c := by
    simp [encodePowChunk, dec2]
  unfold XEnergySensorPOWR3.chunk
  rw [hg0, hmid]
  simp only [Option.some_bind]
  rw [pyIntHex_single hn, pyIntDec_dec2 hc]
  simp only [Option.some_bind, Option.map_some']
  have hval : (n : ℚ) + (c : ℚ) * (1 / 100)
      = ((100 * n + c : ℕ) : ℚ) / 100 := by
    push_cast
    ring
  rw [hval, pyRound2_hundredths]
  unfold centsVal
  congr 1
  push_cast
  ring

/-- Shifting a chunked `mapM` past a leading chunk. -/
theorem mapM_range'_shift (ch : List Char → Option ℚ) (pre t : List Char)
    (step : ℕ) :
    ∀ (k a : ℕ),
      (List.range' (pre.length + a) k step).mapM
          (fun i => ch ((pre ++ t).drop i))
        = (List.range' a k step).mapM (fun i => ch (t.drop i)) := by
  intro k
  induction k with
  | zero => intro a; rfl
  | succ k ih =>
    intro a
    rw [List.range'_succ, List.range'_succ, List.mapM_cons, List.mapM_cons]
    have hdrop : (pre ++ t).drop (pre.length + a) = t.drop a := by
      rw [← List.drop_drop, List.drop_left]
    rw [hdrop]
    have harith : pre.length + a + step = pre.length + (a + step) := by omega
    rw [harith, ih (a + step)]

theorem length_encodeStd (xs : List (ℕ × ℕ × ℕ)) :
    (encodeStd xs).length = 6 * xs.length := by
  induction xs with
  | nil => rfl
  | cons x xs ih =>
    simp only [encodeStd, List.map_cons, List.flatten_cons,
      List.length_append, List.length_cons] at *
    rw [ih]
    simp [encodeStdChunk, hexByte, dec2]
    ring

theorem length_encodeDual (xs : List (ℕ × ℕ)) :
    (encodeDual xs).length = 4 * xs.length := by
  induction xs with
  | nil => rfl
  | cons x xs ih =>
    simp only [encodeDual, List.map_cons, List.flatten_cons,
      List.length_append, List.length_cons] at *
    rw [ih]
    simp [encodeDualChunk, hexByte, dec2]
    ring

theorem length_encodePow (xs : List (ℕ × ℕ)) :
    (encodePow xs).length = 3 * xs.length := by
  induction xs with
  | nil => rfl
  | cons x xs ih =>
    simp only [encodePow, List.map_cons, List.flatten_cons,
      List.length_append, List.length_cons] at *
    rw [ih]
    simp [encodePowChunk, dec2]
    ring

theorem decode_encodeStd (xs : List (ℕ × ℕ × ℕ))
    (hb : ∀ x ∈ xs, x.1 < 256 ∧ x.2.1 < 10 ∧ x.2.2 < 10) :
    XEnergySensor.decode_energy (encodeStd xs) = some (xs.map stdVal) := by
  induction xs with
  | nil => rfl
  | cons x xs ih =>
    obtain ⟨hx1, hx2, hx3⟩ := hb x (by simp)
    have hxs := fun y hy => hb y (List.mem_cons_of_mem x hy)
    have hsplit : encodeStd (x :: xs) = encodeStdChunk x ++ encodeStd xs := by
      simp [encodeStd]
    have hcount : ((encodeStd (x :: xs)).length + 5) / 6 = xs.length + 1 := by
      rw [length_encodeStd]
      simp only [List.length_cons]
      omega
    have hcount' : ((encodeStd xs).length + 5) / 6 = xs.length := by
      rw [length_encodeStd]
      omega
    have hchunklen : (encodeStdChunk x).length = 6 := by
      simp [encodeStdChunk, hexByte, dec2]
    unfold XEnergySensor.decode_energy
    rw [hcount, List.range'_succ, List.mapM_cons]
    have hhead : XEnergySensor.chunk ((encodeStd (x :: xs)).drop 0)
        = some (stdVal x) := by
      rw [List.drop_zero, hsplit]
      obtain ⟨n, d, e⟩ := x
      exact chunk_encodeStd n d e hx1 hx2 hx3 (encodeStd xs)
    have htail : (List.range' (0 + 6) xs.length 6).mapM
        (fun i => XEnergySensor.chunk ((encodeStd (x :: xs)).drop i))
        = some (xs.map stdVal) := by
      have h6 : 0 + 6 = (encodeStdChunk x).length + 0 := by
        rw [hchunklen]
      rw [h6]
      have := mapM_range'_shift XEnergySensor.chunk (encodeStdChunk x)
        (encodeStd xs) 6 xs.length 0
      rw [hsplit, this]
      have hrec := ih hxs
      unfold XEnergySensor.decode_energy at hrec
      rw [hcount'] at hrec
      exact hrec
    rw [hhead, htail]
    rfl

theorem decode_encodeDual (xs : List (ℕ × ℕ))
    (hb : ∀ x ∈ xs, x.1 < 256 ∧ x.2 < 100) :
    XEnergySensorDualR3.decode_energy (encodeDual xs)
      = some (xs.map centsVal) := by
  induction xs with
  | nil => rfl
  | cons x xs ih =>
    obtain ⟨hx1, hx2⟩ := hb x (by simp)
    have hxs := fun y hy => hb y (List.mem_cons_of_mem x hy)
    have hsplit : encodeDual (x :: xs) = encodeDualChunk x ++ encodeDual xs := by
      simp [encodeDual]
    have hcount : ((encodeDual (x :: xs)).length + 3) / 4 = xs.length + 1 := by
      rw [length_encodeDual]
      simp only [List.length_cons]
      omega
    have hcount' : ((encodeDual xs).length + 3) / 4 = xs.length := by
      rw [length_encodeDual]
      omega
    have hchunklen : (encodeDualChunk x).length = 4 := by
      simp [encodeDualChunk, hexByte, dec2]
    unfold XEnergySensorDualR3.decode_energy
    rw [hcount, List.range'_succ, List.mapM_cons]
    have hhead : XEnergySensorDualR3.chunk ((encodeDual (x :: xs)).drop 0)
        = some (centsVal x) := by
      rw [List.drop_zero, hsplit]
      obtain ⟨n, c⟩ := x
      exact chunk_encodeDual n c hx1 hx2 (encodeDual xs)
    have htail : (List.range' (0 + 4) xs.length 4).mapM
        (fun i => XEnergySensorDualR3.chunk ((encodeDual (x :: xs)).drop i))
        = some (xs.map centsVal) := by
      have h4 : 0 + 4 = (encodeDualChunk x).length + 0 := by
        rw [hchunklen]
      rw [h4]
      have := mapM_range'_shift XEnergySensorDualR3.chunk (encodeDualChunk x)
        (encodeDual xs) 4 xs.length 0
      rw [hsplit, this]
      have hrec := ih hxs
      unfold XEnergySensorDualR3.decode_energy at hrec
      rw [hcount'] at hrec
      exact hrec
    rw [hhead, htail]
    rfl

theorem decode_encodePow (xs : List (ℕ × ℕ))
    (hb : ∀ x ∈ xs, x.1 < 16 ∧ x.2 < 100) :
    XEnergySensorPOWR3.decode_energy (encodePow xs)
      = some (xs.map centsVal) := by
  induction xs with
  | nil => rfl
  | cons x xs ih =>
    obtain ⟨hx1, hx2⟩ := hb x (by simp)
    have hxs := fun y hy => hb y (List.mem_cons_of_mem x hy)
    have hsplit : encodePow (x :: xs) = encodePowChunk x ++ encodePow xs := by
      simp [encodePow]
    have hcount : ((encodePow (x :: xs)).length + 2) / 3 = xs.length + 1 := by
      rw [length_encodePow]
      simp only [List.length_cons]
      omega
    have hcount' : ((encodePow xs).length + 2) / 3 = xs.length := by
      rw [length_encodePow]
      omega
    have hchunklen : (encodePowChunk x).length = 3 := by
      simp [encodePowChunk, dec2]
    unfold XEnergySensorPOWR3.decode_energy
    rw [hcount, List.range'_succ, List.mapM_cons]
    have hhead : XEnergySensorPOWR3.chunk ((encodePow (x :: xs)).drop 0)
        = some (centsVal x) := by
      rw [List.drop_zero, hsplit]
      obtain ⟨n, c⟩ := x
      exact chunk_encodePow n c hx1 hx2 (encodePow xs)
    have htail : (List.range' (0 + 3) xs.length 3).mapM
        (fun i => XEnergySensorPOWR3.chunk ((encodePow (x :: xs)).drop i))
        = some (xs.map centsVal) := by
      have h3 : 0 + 3 = (encodePowChunk x).length + 0 := by
        rw [hchunklen]
      rw [h3]
      have := mapM_range'_shift XEnergySensorPOWR3.chunk (encodePowChunk x)
        (encodePow xs) 3 xs.length 0
      rw [hsplit, this]
      have hrec := ih hxs
      unfold XEnergySensorPOWR3.decode_energy at hrec
      rw [hcount'] at hrec
      exact hrec
    rw [hhead, htail]
    rfl

/-- A standard-variant chunk shorter than 6 characters always fails: the
`value[i+5]` index access raises. -/
theorem chunk_short (c : List Char) (h : c.length < 6) :
    XEnergySensor.chunk c = none := by
  have h5 : c.get? 5 = none := by
    rw [List.get?_eq_none]
    omega
  unfold XEnergySensor.chunk
  rcases h1 : pyIntHex (c.take 2) with _ | a
  · rfl
  · simp only [Option.some_bind]
    rcases h3 : c.get? 3 with _ | c3
    · rfl
    · simp only [Option.some_bind]
      rcases hd3 : pyIntDec [c3] with _ | d3
      · rfl
      · simp only [Option.some_bind]
        rw [h5]
        rfl

theorem mapM_none_of_mem {α β : Type} (f : α → Option β) (l : List α)
    (i : α) (hi : i ∈ l) (hf : f i = none) : l.mapM f = none := by
  induction l with
  | nil => simp at hi
  | cons a l ih =>
    rw [List.mapM_cons]
    rcases List.mem_cons.mp hi with rfl | hi'
    · rw [hf]
      rfl
    · rcases ha : f a with _ | b
      · rfl
      · simp only [Option.bind_eq_bind, Option.some_bind]
        rw [ih hi']
        rfl

/-- Any string whose length is not a multiple of 6 makes the standard
decoder return `None`: its final (truncated) chunk hits the failing
`value[i+5]` access. -/
theorem decode_std_malformed (s : List Char) (h : s.length % 6 ≠ 0) :
    XEnergySensor.decode_energy s = none := by
  unfold XEnergySensor.decode_energy
  apply mapM_none_of_mem _ _ (6 * (s.length / 6))
  · rw [List.mem_range']
    exact ⟨s.length / 6, by omega, by omega⟩
  · apply chunk_short
    rw [List.length_drop]
    omega

/-- C9: for every list of non-negative energy values with at most two
decimal places, each value within the representable integer range of its
variant, encoding with the documented hex-integer-part plus
decimal-digit-fields scheme and decoding with the corresponding
`decode_energy` returns the original list exactly (the rational model of
"within rounding tolerance"), for the standard (6 chars/value, integer part
< 256), DualR3 (4 chars/value, integer part < 256) and POWR3 (3 chars/value,
integer part < 16) variants; and malformed inputs decode to `None`: any
string whose length is not a multiple of 6 for the standard variant, and
strings with unparsable characters for the other variants. -/
theorem energy_history_roundtrip :
    (∀ xs : List (ℕ × ℕ × ℕ),
      (∀ x ∈ xs, x.1 < 256 ∧ x.2.1 < 10 ∧ x.2.2 < 10) →
      XEnergySensor.decode_energy (encodeStd xs) = some (xs.map stdVal)) ∧
    (∀ xs : List (ℕ × ℕ), (∀ x ∈ xs, x.1 < 256 ∧ x.2 < 100) →
      XEnergySensorDualR3.decode_energy (encodeDual xs)
        = some (xs.map centsVal)) ∧
    (∀ xs : List (ℕ × ℕ), (∀ x ∈ xs, x.1 < 16 ∧ x.2 < 100) →
      XEnergySensorPOWR3.decode_energy (encodePow xs)
        = some (xs.map centsVal)) ∧
    (∀ s : List Char, s.length % 6 ≠ 0 →
      XEnergySensor.decode_energy s = none) ∧
    XEnergySensorDualR3.decode_energy ['z', 'z', '0', '0'] = none ∧
    XEnergySensorPOWR3.decode_energy ['z', '0', '0'] = none :=
  ⟨decode_encodeStd, decode_encodeDual, decode_encodePow,
   decode_std_malformed, by decide, by decide⟩

/-- Witness for C9 at concrete inputs: the value 3.45 (= `"030405"`
standard, `"0345"` DualR3, `"345"` POWR3) round-trips through all three
variants, and `"03040"` (length 5) decodes to `None`. -/
theorem energy_history_roundtrip_witness :
    XEnergySensor.decode_energy (encodeStd [(3, 4, 5)])
      = some [(345 : ℚ) / 100] ∧
    XEnergySensorDualR3.decode_energy (encodeDual [(3, 45)])
      = some [(345 : ℚ) / 100] ∧
    XEnergySensorPOWR3.decode_energy (encodePow [(3, 45)])
      = some [(345 : ℚ) / 100] ∧
    XEnergySensor.decode_energy ['0', '3', '0', '4', '0'] = none := by
  refine ⟨?_, ?_, ?_,
    energy_history_roundtrip.2.2.2.1 ['0', '3', '0', '4', '0'] (by decide)⟩
  · rw [energy_history_roundtrip.1 [(3, 4, 5)] (by decide)]
    norm_num [stdVal]
  · rw [energy_history_roundtrip.2.1 [(3, 45)] (by decide)]
    norm_num [centsVal]
  · rw [energy_history_roundtrip.2.2.1 [(3, 45)] (by decide)]
    norm_num [centsVal]

end Sonoff
